import Mathlib

/-!
Verification of the DeFi-Observer Aave V3 liquidation pipeline.

Shallow embedding of the Python sources:
  src/tools/aave_v3_liquidations_scanner.py
  src/tools/csv_utils.py
  src/web3_utils.py
  src/chainlink_price_utils.py

Modelling conventions:
* Python floats and `decimal.Decimal` values are modelled as exact
  rationals (`ℚ`); chain integers (`uint256`) as `Nat`, `int256` as `Int`.
* On-chain calls and file contents are environment parameters; a call that
  raises an exception is modelled as `none` / an explicit error outcome.
  Environments are deterministic, so a retry of the same call collapses to
  the same outcome.
* A Python `NameError` caused by an undefined global is modelled through an
  explicit list of the scanner module's top-level names.
-/

/-- Python `str.lower()` restricted to ASCII, mapped over the characters
(kernel-reducible, unlike `String.toLower`). -/
def pyLower (s : String) : String := String.mk (s.data.map Char.toLower)

/-- Python `str.upper()` restricted to ASCII. -/
def pyUpper (s : String) : String := String.mk (s.data.map Char.toUpper)

/-! ## CSV rows and the block field (scanner checkpoint / status logic) -/

/-- The `block` column of one CSV row as the Python code sees it:
`missing` = absent or empty string (falsy), `invalid` = a non-empty string
that `int()` rejects, `val b` = a non-empty string parsing to the integer
`b`. -/
inductive BlockField where
  | missing : BlockField
  | invalid : BlockField
  | val : Int → BlockField
deriving DecidableEq, Repr

/-- One row of the canonical liquidations CSV, reduced to the fields the
checkpoint / status logic reads. -/
structure CsvRow where
  blk : BlockField
deriving DecidableEq, Repr

/-- `int(row.get('block', 0) or 0)` wrapped in `try/except` (scanner lines
927-932): missing and invalid block cells both collapse to `0`. -/
def rowBlockOrZero (r : CsvRow) : Int :=
  match r.blk with
  | .missing => 0
  | .invalid => 0
  | .val b => b

/-- Default genesis block (`FROM_BLOCK`, scanner lines 861-864); the
environment override is modelled by passing the value as a parameter. -/
def FROM_BLOCK_DEFAULT : Int := 16000000

/-- `MAX_VALID_BLOCK` (scanner line 919). -/
def MAX_VALID_BLOCK : Int := 50000000

/-- One iteration of the scanner's `max_block_seen` loop (lines 927-935):
a row whose parsed block is truthy (non-zero) and below `MAX_VALID_BLOCK`
raises the running maximum; every other row is ignored. -/
def maxSeenStep (acc : Option Int) (r : CsvRow) : Option Int :=
  let b := rowBlockOrZero r
  if b ≠ 0 ∧ b < MAX_VALID_BLOCK then
    match acc with
    | none => some b
    | some m => if b > m then some b else some m
  else acc

/-- The scanner's `max_block_seen` (lines 920-935): the maximum of
`int(row['block'])` over rows whose parsed block is truthy (non-zero) and
below `MAX_VALID_BLOCK`; `none` if no row qualifies. -/
def maxBlockSeen (rows : List CsvRow) : Option Int :=
  rows.foldl maxSeenStep none

/-- CSV-based checkpointing (scanner lines 913-951): resume from
`max_block_seen + 1` when the CSV yielded a truthy maximum and at least one
row, otherwise from the configured genesis block. -/
def resumeBlock (rows : List CsvRow) (fromBlock : Int) : Int :=
  match maxBlockSeen rows with
  | some m => if m ≠ 0 ∧ rows.length > 0 then m + 1 else fromBlock
  | none => fromBlock

/-- Modelled from the spec sentence of C4: if the CSV contains at least one
row, resume at `(max block in CSV) + 1`; if it is empty or missing, resume
at the configured genesis block. -/
def resumeBlockSpec (rows : List CsvRow) (fromBlock : Int) : Int :=
  match rows.map rowBlockOrZero with
  | [] => fromBlock
  | b :: bs => (bs.foldl max b) + 1

/-! ## Scan status writes (claim C6) -/

/-- The fields of `data/scan_status.json` that claim C6 is about. -/
structure StatusPayload where
  status : String
  from_block : Int
  events_found : Nat
deriving DecidableEq, Repr

/-- The fresh-from-CSV from-block value the spec asks for: the minimum
block value among the rows (claim C6: "its minimum block value"). -/
def csvMinBlock (rows : List CsvRow) : Option Int :=
  match rows.map rowBlockOrZero with
  | [] => none
  | b :: bs => some (bs.foldl min b)

/-- The status-file invariant claimed by C6 for a written payload: its
`from_block` is the CSV's minimum block value and its `events_found` is the
CSV's row count, both computed fresh from the CSV. -/
def statusFreshFromCsv (p : StatusPayload) (rows : List CsvRow) : Prop :=
  (∀ m, csvMinBlock rows = some m → p.from_block = m) ∧
  p.events_found = rows.length

instance (p : StatusPayload) (rows : List CsvRow) :
    Decidable (statusFreshFromCsv p rows) := by
  unfold statusFreshFromCsv
  infer_instance

/-- The comprehension `[int(r.get('block', 0)) for r in rows if r.get('block')]`
(scanner lines 252, 963 and sync helper): rows with a missing (falsy) block
cell are filtered out; an invalid cell raises, aborting the whole
computation (`none`). -/
def blocksListStrict (rows : List CsvRow) : Option (List Int) :=
  if rows.any (fun r => r.blk = BlockField.invalid) then none
  else some (rows.filterMap (fun r =>
    match r.blk with
    | .val b => some b
    | _ => none))

/-- `computed_from` of `sync_scan_status_from_csv` (scanner lines 243-256):
minimum of the strict blocks list when non-empty, else `FROM_BLOCK`; any
parse exception also falls back to `FROM_BLOCK`. -/
def syncComputedFrom (rows : List CsvRow) (fromBlock : Int) : Int :=
  match blocksListStrict rows with
  | none => fromBlock
  | some [] => fromBlock
  | some (b :: bs) => bs.foldl min b

/-- The payload written by `sync_scan_status_from_csv` (scanner lines
236-271): `from_block` and `events_found` are recomputed from the CSV. -/
def syncStatusPayload (rows : List CsvRow) (fromBlock : Int)
    (status : String) : StatusPayload :=
  { status := status
    from_block := if rows.isEmpty then fromBlock else syncComputedFrom rows fromBlock
    events_found := if rows.isEmpty then 0 else rows.length }

/-- `status_from_block` computed once before the scan loop (scanner lines
957-967); the same strict comprehension as the sync helper. -/
def statusFromBlockAtStart (rows : List CsvRow) (fromBlock : Int) : Int :=
  if rows.isEmpty then fromBlock else syncComputedFrom rows fromBlock

/-- The payload written by `main.write_status` (scanner lines 1007-1021):
`from_block` is the scan-start snapshot and `events_found` is the caller's
in-memory counter; neither is recomputed from the CSV. -/
def writeStatusPayload (statusFromBlock : Int) (eventsFound : Nat)
    (status : String) : StatusPayload :=
  { status := status
    from_block := statusFromBlock
    events_found := eventsFound }

/-- The idle status write (scanner lines 975-992, taken when the resume
block exceeds the chain tip): `from_block` is the configured `FROM_BLOCK`
and `events_found` is `0`, regardless of the CSV contents. -/
def idleStatusPayload (fromBlock : Int) : StatusPayload :=
  { status := "idle"
    from_block := fromBlock
    events_found := 0 }

/-! ## CSV append with tx dedupe (claim C5, tools/csv_utils.py) -/

/-- One CSV row as `append_row_if_tx_missing` sees it: only the `tx` column
is consulted; the rest of the row is opaque payload. -/
structure TxRow where
  tx : String
  payload : String
deriving DecidableEq, Repr

/-- The set of existing tx values: `set(r.get(tx_field).lower() for r in
reader if r.get(tx_field))` (csv_utils line 85) — rows with a falsy (empty)
tx cell are skipped. -/
def existingTxs (file : List TxRow) : List String :=
  (file.filter (fun r => r.tx ≠ "")).map (fun r => pyLower r.tx)

/-- `append_row_if_tx_missing` (csv_utils lines 76-115): a row with an
empty tx is appended unconditionally; otherwise the row is appended iff its
lowercased tx is not among the existing non-empty lowercased tx values.
Returns the new file contents and the boolean result. -/
def append_row_if_tx_missing (file : List TxRow) (row : TxRow) :
    List TxRow × Bool :=
  if pyLower row.tx = "" then (file ++ [row], true)
  else if pyLower row.tx ∈ existingTxs file then (file, false)
  else (file ++ [row], true)

/-- "the row's tx value is already present in the file (compared
case-insensitively)" — the presence notion of claim C5. -/
def txPresent (file : List TxRow) (row : TxRow) : Prop :=
  ∃ r ∈ file, pyLower r.tx = pyLower row.tx

instance (file : List TxRow) (row : TxRow) : Decidable (txPresent file row) := by
  unfold txPresent
  infer_instance

/-! ## Chunked log reader (claim C7, web3_utils.get_logs_chunked) -/

/-- Outcome of one `eth_getLogs` call in `get_logs_chunked`: a successful
list of logs (each log identified by its block number), a
range-exceeded/too-many-results style error, or any other error. -/
inductive FetchOutcome where
  | ok : List Nat → FetchOutcome
  | rangeErr : FetchOutcome
  | otherErr : FetchOutcome
deriving DecidableEq, Repr

/-- Loop state of `get_logs_chunked`: the downward cursor `to_blk`, the
current chunk size, and the logs accumulated so far. -/
structure ChunkState where
  cursor : Int
  chunk : Nat
  logs : List Nat
deriving DecidableEq, Repr

/-- The queried lower bound `frm = max(from_block, to_blk - chunk + 1)`
(web3_utils line 296). -/
def chunkFrm (fromBlock : Int) (s : ChunkState) : Int :=
  max fromBlock (s.cursor - s.chunk + 1)

/-- One iteration of the `get_logs_chunked` loop (web3_utils lines
295-331): success appends the logs and advances the cursor below `frm`; a
range error halves the chunk (floor `min_chunk`) without advancing; any
other error skips the subrange by advancing the cursor below `frm`. No
provider rotation happens anywhere in this loop. -/
def chunkStep (env : Int → Int → FetchOutcome) (fromBlock : Int)
    (minChunk : Nat) (s : ChunkState) : ChunkState :=
  if s.cursor < fromBlock then s
  else
    let frm := chunkFrm fromBlock s
    match env frm s.cursor with
    | .ok part => { s with cursor := frm - 1, logs := s.logs ++ part }
    | .rangeErr => { s with chunk := max minChunk (s.chunk / 2) }
    | .otherErr => { s with cursor := frm - 1 }

/-- Fuel-bounded driver for the `get_logs_chunked` loop. -/
def chunkRun (env : Int → Int → FetchOutcome) (fromBlock : Int)
    (minChunk : Nat) : Nat → ChunkState → ChunkState
  | 0, s => s
  | fuel + 1, s =>
      if s.cursor < fromBlock then s
      else chunkRun env fromBlock minChunk fuel (chunkStep env fromBlock minChunk s)

/-- `get_logs_chunked(w3, addr, topics, from_block, to_block, initial_chunk,
min_chunk)` with explicit fuel: returns the accumulated logs. -/
def get_logs_chunked (env : Int → Int → FetchOutcome) (fromBlock toBlock : Int)
    (initialChunk minChunk fuel : Nat) : List Nat :=
  (chunkRun env fromBlock minChunk fuel
    { cursor := toBlock, chunk := initialChunk, logs := [] }).logs

/-- Modelled from the spec sentence of C7 ("If the call returns a generic
network error, rotate the provider and retry. If all providers fail, skip
that subrange and continue"): the same chunked walk, but with a pool of
`nProv` providers; a generic error rotates to the next provider and retries
the same subrange, and the subrange is skipped only after every provider
has failed for it. -/
def chunkRunSpec (envP : Nat → Int → Int → FetchOutcome) (nProv : Nat)
    (fromBlock : Int) (minChunk : Nat) :
    Nat → Nat → Nat → ChunkState → ChunkState
  | 0, _, _, s => s
  | fuel + 1, prov, failed, s =>
      if s.cursor < fromBlock then s
      else
        let frm := chunkFrm fromBlock s
        match envP prov frm s.cursor with
        | .ok part =>
            chunkRunSpec envP nProv fromBlock minChunk fuel prov 0
              { s with cursor := frm - 1, logs := s.logs ++ part }
        | .rangeErr =>
            chunkRunSpec envP nProv fromBlock minChunk fuel prov failed
              { s with chunk := max minChunk (s.chunk / 2) }
        | .otherErr =>
            if failed + 1 ≥ nProv then
              chunkRunSpec envP nProv fromBlock minChunk fuel prov 0
                { s with cursor := frm - 1 }
            else
              chunkRunSpec envP nProv fromBlock minChunk fuel
                ((prov + 1) % nProv) (failed + 1) s

/-- Spec-modelled chunked reader with provider rotation (claim C7's
wording). -/
def getLogsChunkedSpec (envP : Nat → Int → Int → FetchOutcome) (nProv : Nat)
    (fromBlock toBlock : Int) (initialChunk minChunk fuel : Nat) : List Nat :=
  (chunkRunSpec envP nProv fromBlock minChunk fuel 0 0
    { cursor := toBlock, chunk := initialChunk, logs := [] }).logs

/-- Counterexample environment for C7: provider 0 always fails with a
generic error, provider 1 succeeds and returns one log at block 150. -/
def c7envP : Nat → Int → Int → FetchOutcome :=
  fun prov _ _ => if prov = 0 then .otherErr else .ok [150]

/-! ## Adaptive batch sizing (claim C8, scanner main loop) -/

def INITIAL_BATCH_SIZE : Nat := 1000
def MIN_BATCH_SIZE : Nat := 500
def MAX_BATCH_SIZE : Nat := 10000
def MAX_CONSECUTIVE_ERRORS : Nat := 3

/-- Batch-sizing state of the scan loop (scanner lines 1092-1100):
`current_batch_size`, `alchemy_limit_detected`, `consecutive_errors`. -/
structure BatchState where
  batch : Nat
  limitDetected : Bool
  consecErrors : Nat
deriving DecidableEq, Repr

/-- One observable event of a batch attempt: success, a provider-limit
rejection (HTTP 400/429 or a range/too-large/exceeds message), or any
other error. `rotateOk` records whether the provider rotation attempted in
the corresponding error path succeeds. -/
inductive BatchEvent where
  | success : BatchEvent
  | providerLimitError : Bool → BatchEvent
  | otherError : BatchEvent
deriving DecidableEq, Repr

/-- The batch-size update of one loop iteration (scanner lines 1111-1465):
on success, reset `consecutive_errors` and double the batch up to
`MAX_BATCH_SIZE` unless `alchemy_limit_detected`; on any error, first check
the consecutive-error rotation path (batch and flag unchanged); otherwise a
provider-limit error halves the batch down to `MIN_BATCH_SIZE` and sets the
flag, and at the floor a successful rotation resets the batch to
`INITIAL_BATCH_SIZE` and clears the flag (lines 1449-1457). -/
def batchStep (s : BatchState) : BatchEvent → BatchState
  | .success =>
      if s.batch < MAX_BATCH_SIZE ∧ s.limitDetected = false then
        { batch := min (s.batch * 2) MAX_BATCH_SIZE
          limitDetected := s.limitDetected
          consecErrors := 0 }
      else
        { s with consecErrors := 0 }
  | .providerLimitError rotateOk =>
      let ce := s.consecErrors + 1
      if ce ≥ MAX_CONSECUTIVE_ERRORS then { s with consecErrors := 0 }
      else if s.batch > MIN_BATCH_SIZE then
        { batch := max (s.batch / 2) MIN_BATCH_SIZE
          limitDetected := true
          consecErrors := ce }
      else if rotateOk then
        { batch := INITIAL_BATCH_SIZE, limitDetected := false, consecErrors := 0 }
      else
        { s with consecErrors := ce }
  | .otherError =>
      let ce := s.consecErrors + 1
      if ce ≥ MAX_CONSECUTIVE_ERRORS then { s with consecErrors := 0 }
      else { s with consecErrors := ce }

/-- The initial batch state of a scan pass (scanner lines 1092-1099). -/
def batchInit : BatchState :=
  { batch := INITIAL_BATCH_SIZE, limitDetected := false, consecErrors := 0 }

/-- Folding a sequence of batch events over the state. -/
def batchRun (s : BatchState) (evs : List BatchEvent) : BatchState :=
  evs.foldl batchStep s

/-! ## Row normalization before CSV write (claim C9) -/

/-- One CSV cell as produced by the scanner before writing: a number (int
or float), a string, or the empty value (`None` and the empty string are
written identically). -/
inductive Cell where
  | num : ℚ → Cell
  | str : String → Cell
  | blank : Cell
deriving DecidableEq, Repr

/-- A cell is machine-parseable as required by C9: a valid number or the
empty string, never a non-numeric token. -/
def cellNumOrBlank : Cell → Bool
  | .num _ => true
  | .blank => true
  | .str _ => false

/-- `NUMERIC_FIELD_NAMES` (scanner lines 132-142). -/
def NUMERIC_FIELD_NAMES : List String :=
  ["collateral_price_usd_at_block", "debt_price_usd_at_block",
   "collateral_value_usd", "debt_value_usd", "gas_used", "gas_price_gwei",
   "eth_price_usd_at_block", "collateralOut", "debtToCover"]

/-- `CSV_FIELD_ORDER` (scanner lines 82-109). -/
def CSV_FIELD_ORDER : List String :=
  ["block", "timestamp", "datetime_utc", "collateralAsset", "debtAsset",
   "user", "liquidator", "collateralOut", "debtToCover", "receiveAToken",
   "collateralSymbol", "debtSymbol", "collateral_price_usd_at_block",
   "debt_price_usd_at_block", "collateral_value_usd", "debt_value_usd",
   "tx", "block_builder", "gas_used", "gas_price_gwei",
   "eth_price_usd_at_block"]

/-- Normalization of one numeric cell (scanner lines 153-176): empty and
`None` stay empty; numbers are kept; a string is either parsed to a float
or cleared. `parse` abstracts the combined hex/alpha check and `float()`
call: it yields the parsed value exactly when the Python code would keep
one. -/
def normalizeNumericCell (parse : String → Option ℚ) : Cell → Cell
  | .blank => .blank
  | .num q => .num q
  | .str s =>
      match parse s with
      | some q => .num q
      | none => .blank

/-- `normalize_event_data_for_write` (scanner lines 145-180) viewed as a
map from field name to cell: numeric fields are normalized, all other
fields pass through. -/
def normalize_event_data_for_write (parse : String → Option ℚ)
    (eventData : String → Cell) : String → Cell :=
  fun f =>
    if f ∈ NUMERIC_FIELD_NAMES then normalizeNumericCell parse (eventData f)
    else eventData f

/-- The row the forward sweep writes (scanner lines 1366-1367):
`row = {k: normalize_event_data_for_write(event_data).get(k, '') for k in
CSV_FIELD_ORDER}`. -/
def forwardSweepRowCell (parse : String → Option ℚ)
    (eventData : String → Cell) (f : String) : Cell :=
  if f ∈ CSV_FIELD_ORDER then normalize_event_data_for_write parse eventData f
  else .blank

/-- Round half-to-even to an integer (Python `round` semantics, also used
by `Decimal.quantize` with the default rounding). -/
def roundHalfEven (q : ℚ) : ℤ :=
  if q - ⌊q⌋ < 1 / 2 then ⌊q⌋
  else if q - ⌊q⌋ > 1 / 2 then ⌊q⌋ + 1
  else if ⌊q⌋ % 2 = 0 then ⌊q⌋ else ⌊q⌋ + 1

/-- Python `round(x, n)` as a rational. -/
def pyRound (q : ℚ) (n : Nat) : ℚ :=
  (roundHalfEven (q * 10 ^ n) : ℚ) / 10 ^ n

/-- The inputs of one gap-fill row (scanner lines 1546-1636), already
decoded from the log and the auxiliary RPC replies. -/
structure GapRowInputs where
  blockNum : Nat
  ts : Nat
  datetimeUtc : String
  collateralSymbol : String
  debtSymbol : String
  collateralAmount : Nat
  debtToCover : Nat
  collateralDecimals : Nat
  debtDecimals : Nat
  priceCollateral : ℚ
  priceDebt : ℚ
  txHash : String
  user : String
  liquidator : String
  collateralAsset : String
  debtAsset : String
  receiveAToken : Bool
  blockBuilder : String
  gasUsed : Nat
  gasPriceGwei : ℚ
  ethPrice : Option ℚ
deriving Repr

/-- The gap-fill `event_data` dict (scanner lines 1613-1636) projected to
cells, keyed by CSV column name; built without a normalization pass, but
every numeric column is constructed from a number or left empty. Formatted
price strings (`f"{p:.8f}"`) are numeric strings and are modelled as their
numeric value. -/
def gapRowCell (i : GapRowInputs) (f : String) : Cell :=
  if f = "block" then .num i.blockNum
  else if f = "timestamp" then .num i.ts
  else if f = "datetime_utc" then .str i.datetimeUtc
  else if f = "collateralSymbol" then .str i.collateralSymbol
  else if f = "debtSymbol" then .str i.debtSymbol
  else if f = "collateralOut" then
    .num (pyRound ((i.collateralAmount : ℚ) / 10 ^ i.collateralDecimals) 8)
  else if f = "debtToCover" then
    .num (pyRound ((i.debtToCover : ℚ) / 10 ^ i.debtDecimals) 8)
  else if f = "collateral_price_usd_at_block" then
    (if i.priceCollateral ≠ 0 then .num (pyRound i.priceCollateral 8) else .blank)
  else if f = "debt_price_usd_at_block" then
    (if i.priceDebt ≠ 0 then .num (pyRound i.priceDebt 8) else .blank)
  else if f = "collateral_value_usd" then
    (if i.priceCollateral > 0 ∧ i.priceDebt > 0 then
      .num (pyRound ((i.collateralAmount : ℚ) / 10 ^ i.collateralDecimals * i.priceCollateral) 2)
    else .blank)
  else if f = "debt_value_usd" then
    (if i.priceCollateral > 0 ∧ i.priceDebt > 0 then
      .num (pyRound ((i.debtToCover : ℚ) / 10 ^ i.debtDecimals * i.priceDebt) 2)
    else .blank)
  else if f = "tx" then .str i.txHash
  else if f = "user" then .str i.user
  else if f = "liquidator" then .str i.liquidator
  else if f = "collateralAsset" then .str i.collateralAsset
  else if f = "debtAsset" then .str i.debtAsset
  else if f = "receiveAToken" then .str (toString i.receiveAToken)
  else if f = "block_builder" then .str i.blockBuilder
  else if f = "gas_used" then .num i.gasUsed
  else if f = "gas_price_gwei" then
    (if i.gasPriceGwei ≠ 0 then .num (pyRound i.gasPriceGwei 2) else .num 0)
  else if f = "eth_price_usd_at_block" then
    (match i.ethPrice with
     | some e => if e ≠ 0 then .num (pyRound e 8) else .blank
     | none => .blank)
  else .blank

/-! ## The scanner module's global namespace and the gap-fill phase
(claims C1 and C10) -/

/-- Every top-level name bound in
`src/tools/aave_v3_liquidations_scanner.py` (imports, assignments,
function and class definitions), read off the source. Evaluating any
other name at module scope raises a `NameError`. -/
def scannerModuleGlobals : List String :=
  ["os", "sys", "csv", "json", "time", "logging", "subprocess", "datetime",
   "event_abi_to_log_topic", "Web3", "HTTPProvider", "decode", "_decode",
   "ROOT", "ChainlinkPriceFetcher", "normalize_symbol",
   "get_fallback_symbol", "is_stablecoin", "get_web3", "get_logs_chunked",
   "safe_append_row", "random", "shutil", "tempfile", "MASTER_CSV_PATH",
   "ensure_master_csv_exists", "Colors", "logger", "DATA_DIR",
   "LIQUIDATION_EVENT_ABI", "LIQUIDATION_TOPIC", "CSV_FIELD_ORDER",
   "WRITE_TO_MASTER", "MASTER_CSV_FILENAME", "STAGING_CSV_FILENAME",
   "get_write_csv_path", "NUMERIC_FIELD_NAMES",
   "normalize_event_data_for_write", "reconcile_master_csv_header",
   "sync_scan_status_from_csv", "get_web3_with_rotation", "TOKEN_SYMBOLS",
   "TOKEN_DECIMALS", "ERC20_ABI", "LSD_TOKENS", "LSD_EXCHANGE_RATE_ABIS",
   "is_lsd_token", "get_lsd_exchange_rate", "get_lsd_price",
   "get_aave_asset_price", "_get_token_symbol", "_get_token_decimals",
   "AAVE_GET_CONFIG_ABI", "_extract_bits", "_get_liquidation_params",
   "_get_collateral_risk_params", "AAVE_V3_ETH_POOL", "FROM_BLOCK",
   "AAVE_V3_POOL_ABI", "main", "backfill_missing_prices",
   "validate_and_fill_gaps", "validate_numbers"]

/-- The Python modules present in `src/tools/` (importable as
`tools.<name>`), read off the source tree. -/
def toolsPackageModules : List String :=
  ["aave_v3_liquidations_scanner", "csv_utils"]

/-- Gap detection over the recorded scanned ranges (scanner lines
1469-1482): sort by start block, then report `(prev_end + 1, curr_start - 1)`
whenever `curr_start > prev_end + 1`. -/
def computeGaps (ranges : List (Nat × Nat)) : List (Nat × Nat) :=
  let sorted := ranges.insertionSort (fun a b => a.1 ≤ b.1)
  (sorted.zip sorted.tail).filterMap (fun pc =>
    let prevEnd := pc.1.2
    let currStart := pc.2.1
    if currStart > prevEnd + 1 then some (prevEnd + 1, currStart - 1) else none)

/-- One raw `LiquidationCall` log of the gap-fill phase, reduced to what
the dedupe-and-append path consults. -/
structure GapLog where
  txLower : String
  row : GapRowInputs

/-- Processing one gap log (scanner lines 1513-1658): skip duplicates,
then append through `from tools.csv_utils_clean import
append_row_if_tx_missing` — an import that raises because no such module
exists, so the handler at line 1651 sets `appended = False`. Returns the
appended row, if any. -/
def processGapLog (existing : List String) (lg : GapLog) : Option GapRowInputs :=
  if lg.txLower ∈ existing then none
  else if "csv_utils_clean" ∈ toolsPackageModules then some lg.row
  else none

/-- One gap batch (scanner lines 1498-1665): fetch the logs; on success the
very next statement `mark_provider_success(response_time)` (line 1507)
evaluates a module-global name, and only if that resolves does the
processing loop run; a `NameError` is caught by the handler at line 1664
and the whole batch is dropped. A fetch error likewise drops the batch. -/
def gapBatchAppends (fetch : Nat → Nat → Option (List GapLog))
    (existing : List String) (gapFrom gapTo : Nat) : List GapRowInputs :=
  match fetch gapFrom gapTo with
  | some logs =>
      if "mark_provider_success" ∈ scannerModuleGlobals then
        logs.filterMap (processGapLog existing)
      else []
  | none => []

/-- Walking one gap in batches of `batchSize` (scanner lines 1494-1667),
fuel-bounded. -/
def gapWalk (fetch : Nat → Nat → Option (List GapLog))
    (existing : List String) (batchSize gapEnd : Nat) :
    Nat → Nat → List GapRowInputs
  | 0, _ => []
  | fuel + 1, gapFrom =>
      if gapFrom > gapEnd then []
      else
        gapBatchAppends fetch existing gapFrom
            (min (gapFrom + batchSize - 1) gapEnd) ++
          gapWalk fetch existing batchSize gapEnd fuel
            (min (gapFrom + batchSize - 1) gapEnd + 1)

/-- The entire gap-fill phase (scanner lines 1469-1671): detect gaps in the
scanned ranges, then walk each gap, collecting every row it appends to the
CSV. -/
def gapFillAppends (fetch : Nat → Nat → Option (List GapLog))
    (existing : List String) (batchSize fuel : Nat)
    (ranges : List (Nat × Nat)) : List GapRowInputs :=
  (computeGaps ranges).flatMap (fun g =>
    gapWalk fetch existing batchSize g.2 fuel g.1)

/-! ## Static tables of the price resolver (chainlink_price_utils.py) -/

/-- `TOKEN_ALIASES` (chainlink_price_utils lines 60-108). -/
def TOKEN_ALIASES : List (String × String) :=
  [("WETH", "ETH"), ("ETH", "ETH"), ("WBTC", "BTC"), ("TBTC", "BTC"),
   ("BTC", "BTC"), ("DAI", "DAI"), ("USDC", "USDC"), ("USDT", "USDT"),
   ("AAVE", "AAVE"), ("LINK", "LINK"), ("MKR", "MKR"), ("UNI", "UNI"),
   ("CRV", "CRV"), ("GNO", "GNO"), ("STG", "STG"), ("COMP", "COMP"),
   ("WSTETH", "WSTETH"), ("STETH", "WSTETH"), ("RETH", "RETH"),
   ("LDO", "LDO"), ("GHO", "GHO"), ("LUSD", "LUSD"), ("RPL", "RPL"),
   ("ENS", "ENS"), ("CBETH", "CBETH"), ("FRAX", "FRAX"), ("SNX", "SNX"),
   ("BAL", "BAL"), ("FXS", "FXS"), ("1INCH", "1INCH"), ("CBBTC", "CBBTC"),
   ("PYUSD", "PYUSD"), ("CRVUSD", "CRVUSD"), ("USDS", "USDS"),
   ("USDE", "USDE"), ("EURC", "EUR"), ("USDB", "USDB"), ("ETHX", "ETH"),
   ("WEETH", "ETH"), ("SDAI", "DAI"), ("SUSDE", "USDE")]

/-- `TOKEN_ALIASES.get(sym, sym)` as used by `_get_feed_addr`. -/
def aliasResolve (sym : String) : String :=
  match TOKEN_ALIASES.find? (fun p => p.1 = sym) with
  | some p => p.2
  | none => sym

/-- The keys of `CHAINLINK_FEEDS` (chainlink_price_utils lines 20-58). -/
def CHAINLINK_FEEDS_KEYS : List String :=
  ["ETH", "BTC", "DAI", "USDC", "USDT", "AAVE", "LINK", "UNI", "CRV",
   "COMP", "WSTETH", "GHO", "LUSD", "RPL", "ENS", "FRAX", "SNX", "BAL",
   "FXS", "1INCH", "CBBTC", "PYUSD", "CRVUSD", "TBTC", "USDS", "USDE",
   "EUR"]

/-- The keys of the merged `AAVE_ORACLE_TOKENS` dict (chainlink_price_utils
lines 144-166), case exactly as in the source: the membership test in
`get_price_for_block` compares the upper-cased symbol against these. -/
def AAVE_ORACLE_TOKENS_KEYS : List String :=
  ["STG", "GNO", "USDtb", "rsETH", "LBTC", "osETH", "XAUt", "FBTC",
   "eBTC", "KNC", "PT-eUSDE-14AUG2025", "PT-sUSDE-25SEP2025"]

/-- The keys of `CAPO_ADAPTERS` (chainlink_price_utils lines 175-183). -/
def CAPO_ADAPTERS_KEYS : List String :=
  ["WSTETH", "RETH", "CBETH", "WEETH", "RSETH", "OSETH", "SUSDE"]

/-- One entry of the `LSD_CONTRACTS` table (chainlink_price_utils lines
201-247). -/
structure LsdContractCfg where
  method : String
  underlying : String
  decimals : Nat
  hasInputAmount : Bool
deriving DecidableEq, Repr

/-- `LSD_CONTRACTS` (chainlink_price_utils lines 201-247), keyed by the
upper-cased LSD symbol. -/
def LSD_CONTRACTS : List (String × LsdContractCfg) :=
  [("WSTETH", ⟨"stEthPerToken", "STETH", 18, false⟩),
   ("RETH", ⟨"getExchangeRate", "ETH", 18, false⟩),
   ("CBETH", ⟨"exchangeRate", "ETH", 18, false⟩),
   ("RSETH", ⟨"rsETHPrice", "ETH", 18, false⟩),
   ("WEETH", ⟨"getRate", "ETH", 18, false⟩),
   ("OSETH", ⟨"convertToAssets", "ETH", 18, true⟩),
   ("SUSDE", ⟨"convertToAssets", "USDE", 18, true⟩)]

def lsdContractLookup (sym : String) : Option LsdContractCfg :=
  match LSD_CONTRACTS.find? (fun p => p.1 = sym) with
  | some p => some p.2
  | none => none

/-- The keys of `ETH_BASED_FEEDS` (chainlink_price_utils lines 289-292). -/
def ETH_BASED_FEEDS_KEYS : List String := ["LDO", "MKR"]

/-- `STABLE_TOKENS` with the added `RLUSD` entry (chainlink_price_utils
lines 125-128). -/
def STABLE_TOKENS : List String :=
  ["USDC", "USDT", "DAI", "FRAX", "LUSD", "GHO", "PYUSD", "USDS",
   "CRVUSD", "USDE", "USDB", "RLUSD"]

/-- `is_stablecoin` (chainlink_price_utils lines 416-420). -/
def is_stablecoin (symbol : String) : Bool :=
  if symbol = "" then false else pyUpper symbol ∈ STABLE_TOKENS

/-- One entry of the scanner-side `LSD_TOKENS` table (scanner lines
385-437), keyed by lower-cased contract address. -/
structure LsdTokenCfg where
  name : String
  fn : String
  underlying : String
  decimals : Nat
  hasInputAmount : Bool
deriving DecidableEq, Repr

/-- `LSD_TOKENS` (scanner lines 385-437). -/
def LSD_TOKENS : List (String × LsdTokenCfg) :=
  [("0x7f39c581f595b53c5cb19bd0b3f8da6c935e2ca0",
      ⟨"wstETH", "stEthPerToken", "ETH", 18, false⟩),
   ("0xae78736cd615f374d3085123a210448e74fc6393",
      ⟨"rETH", "getExchangeRate", "ETH", 18, false⟩),
   ("0xbe9895146f7af43049ca1c1ae358b0541ea49704",
      ⟨"cbETH", "exchangeRate", "ETH", 18, false⟩),
   ("0xcd5fe23c85820f7b72d0926fc9b05b43e359b7ee",
      ⟨"weETH", "getRate", "ETH", 18, false⟩),
   ("0xa1290d69c65a6fe4df752f95823fae25cb99e5a7",
      ⟨"rsETH", "getRsETHPrice", "ETH", 18, false⟩),
   ("0x83f20f44975d03b1b09e64809b757c47f942beea",
      ⟨"sDAI", "convertToAssets", "DAI", 18, true⟩),
   ("0x9d39a5de30e57443bff2a8307a4256c8797a3497",
      ⟨"sUSDe", "convertToAssets", "USDE", 18, true⟩)]

def lsdTokenLookup (addr : String) : Option LsdTokenCfg :=
  match LSD_TOKENS.find? (fun p => p.1 = pyLower addr) with
  | some p => some p.2
  | none => none

/-- `is_lsd_token` (scanner lines 475-477). -/
def is_lsd_token (addr : String) : Bool :=
  (lsdTokenLookup addr).isSome

/-! ## CAPO parameters and the growth cap (claims C2, C3, C10) -/

/-- CAPO parameters as read from a deployed adapter
(`_get_capo_params_from_chain`, chainlink_price_utils lines 542-580); all
four values are chain `uint`s. -/
structure CapoParams where
  snapshot : Nat
  snapTs : Nat
  maxYearlyBps : Nat
  ratioDecimals : Nat
deriving DecidableEq, Repr

/-- CAPO parameters as the JSON fallback file may provide them
(chainlink_price_utils lines 884-942): a ratio entry, a stable price cap,
or an entry of any other type. -/
inductive CapoJson where
  | ratioP : CapoParams → CapoJson
  | stableP : Int → Nat → CapoJson
  | otherP : CapoJson
deriving DecidableEq, Repr

/-- `SECONDS_PER_YEAR` (chainlink_price_utils line 18). -/
def secondsPerYear : ℚ := 365 * 24 * 3600

/-- `cap_price_from_ratio` (chainlink_price_utils lines 253-277), with
`Decimal` arithmetic modelled as exact rationals and the final
`quantize(Decimal('0.00000001'))` as round-half-even at 8 decimals. -/
def capPriceFromSnapshot (basePrice curRat snap : ℚ) (snapTs : Int)
    (maxYearlyBps : Int) (ratioDecimals : Nat) (eventTs : Int) : ℚ :=
  if snap = 0 then 0
  else
    let growthPerSecScaled := snap * maxYearlyBps * 1000000 / (10000 * secondsPerYear)
    let elapsed : ℚ := max 0 ((eventTs : ℚ) - (snapTs : ℚ))
    let maxAllowed := snap + growthPerSecScaled * elapsed / 1000000
    let effective := if curRat ≤ maxAllowed then curRat else maxAllowed
    pyRound (basePrice * effective / 10 ^ ratioDecimals) 8

/-- The maximum allowed ratio of claim C3's formula:
`snapshot_ratio + (snapshot_ratio × max_yearly_bps × elapsed_seconds) /
(10000 × seconds_per_year)`. -/
def maxAllowedRat (p : CapoParams) (eventTs : Int) : ℚ :=
  (p.snapshot : ℚ) +
    ((p.snapshot : ℚ) * (p.maxYearlyBps : ℚ) * max 0 ((eventTs : ℚ) - (p.snapTs : ℚ))) /
      (10000 * secondsPerYear)

/-! ## The resolver environment -/

/-- All on-chain reads a single `price_usd(symbol, asset, block)`
resolution can make, for one fixed block. A `none` result models a call
that raised; environments are deterministic, so retries of the same call
collapse. Feed-keyed functions are keyed by the resolved feed symbol. -/
structure PriceEnv where
  /-- `get_code` on the configured feed address is non-empty
  (`_get_feed_addr`); `false` also covers a raised `get_code`. -/
  hasCode : String → Bool
  /-- `decimals()` of the direct feed (via `_get_decimals`). -/
  feedDecimals : String → Option Nat
  /-- `latestRoundData().answer` of the direct feed at the block. -/
  feedAnswer : String → Option Int
  /-- Aave oracle `getAssetPrice(AAVE_ORACLE_TOKENS[sym])` at the block. -/
  aaveOracleTokenPrice : String → Option Nat
  /-- Fetcher-side LSD exchange-rate raw call at the block, per symbol. -/
  lsdRate : String → Option Nat
  /-- `decimals()` of the dedicated stETH/USD feed. -/
  stethFeedDecimals : Option Nat
  /-- `latestRoundData().answer` of the stETH/USD feed at the block. -/
  stethFeedAnswer : Option Int
  /-- The four CAPO adapter reads at the block, per adapter symbol;
  `none` if any of them raised. -/
  capoChain : String → Option CapoParams
  /-- The static `data/capo_params.json` fallback entry, per symbol. -/
  capoJson : String → Option CapoJson
  /-- `w3.eth.get_block(block).timestamp`; `none` if the call raised. -/
  blockTs : Option Nat
  /-- `time.time()` used when the block timestamp is unavailable. -/
  wallClock : Nat
  /-- `decimals()` of the `ETH_BASED_FEEDS` aggregator, per symbol. -/
  ethFeedDecimals : String → Option Nat
  /-- `latestRoundData().answer` of that aggregator at the block. -/
  ethFeedAnswer : String → Option Int
  /-- Scanner-side Aave oracle `getAssetPrice(asset)` at the block. -/
  oracleAssetPrice : Option Nat
  /-- Scanner-side `get_lsd_exchange_rate` raw contract call. -/
  scannerLsdRate : Option Nat

/-- Python truthiness of an optional float. -/
def truthy : Option ℚ → Bool
  | none => false
  | some q => q ≠ 0

/-- `_get_capo_params_from_chain(symbol, block)` (chainlink_price_utils
lines 542-580): `none` when the symbol is not a CAPO adapter key or a read
raised. -/
def capoChainParams (env : PriceEnv) (sym : String) : Option CapoParams :=
  if pyUpper sym ∈ CAPO_ADAPTERS_KEYS then env.capoChain (pyUpper sym) else none

/-- The CAPO parameter dict `_get_lsd_price_for_block` ends up using
(chainlink_price_utils lines 875-895): the chain read first
(`use_capo_contracts` defaults to true), then the JSON fallback. -/
def capoParamsUsed (env : PriceEnv) (sym : String) : Option CapoJson :=
  match capoChainParams env sym with
  | some p => some (.ratioP p)
  | none => env.capoJson sym

/-- Layer 1 of `get_price_for_block` (chainlink_price_utils lines
712-728): resolve the alias, require a configured feed with on-chain code,
call `latestRoundData` at the block and divide by `decimals()`; only a
positive answer yields a price. -/
def directFeedPrice (env : PriceEnv) (feedSymbol : String) : Option ℚ :=
  let resolved := aliasResolve (pyUpper feedSymbol)
  if resolved ∈ CHAINLINK_FEEDS_KEYS ∧ env.hasCode resolved = true then
    let dec := (env.feedDecimals resolved).getD 18
    match env.feedAnswer resolved with
    | some a => if a > 0 then some ((a : ℚ) / 10 ^ dec) else none
    | none => none
  else none

/-- `_get_aave_oracle_price_for_block` (chainlink_price_utils lines
760-785). -/
def aaveOracleTokenLayer (env : PriceEnv) (symU : String) : Option ℚ :=
  if symU ∈ AAVE_ORACLE_TOKENS_KEYS then
    match env.aaveOracleTokenPrice symU with
    | some raw => if raw > 0 then some ((raw : ℚ) / 10 ^ 8) else none
    | none => none
  else none

/-- The underlying-asset price used by `_get_lsd_price_for_block`
(chainlink_price_utils lines 851-866): the dedicated stETH/USD feed for
wstETH, otherwise a recursive `get_price_for_block` on the configured
underlying symbol (the recursive call is passed in as `gpfb`). -/
def lsdUnderlyingGo (env : PriceEnv) (gpfb : String → Option ℚ)
    (sym : String) : Option ℚ :=
  match lsdContractLookup sym with
  | none => none
  | some cfg =>
      if sym = "WSTETH" ∧ cfg.underlying = "STETH" then
        match env.stethFeedDecimals, env.stethFeedAnswer with
        | some d, some a => some ((a : ℚ) / 10 ^ d)
        | _, _ => none
      else gpfb cfg.underlying

/-- `ChainlinkPriceFetcher._get_lsd_price_for_block` (chainlink_price_utils
lines 817-950): exchange rate times underlying price, then the CAPO check;
returns `(price, used_capo)`. When the raw price exceeds the capped price
by more than `0.01` the capped price is returned, otherwise the raw price
is returned, in both cases flagged as capped. The recursive
`get_price_for_block` is passed in as `gpfb`. -/
def lsdPriceGo (env : PriceEnv) (gpfb : String → Option ℚ)
    (sym : String) : Option ℚ × Bool :=
  match lsdContractLookup sym with
  | none => (none, false)
  | some cfg =>
      match env.lsdRate sym with
      | none => (none, false)
      | some raw =>
          let rate : ℚ := (raw : ℚ) / 10 ^ cfg.decimals
          match lsdUnderlyingGo env gpfb sym with
          | none => (none, false)
          | some u =>
              if u = 0 then (none, false)
              else
                let rawPrice := u * rate
                match capoParamsUsed env sym with
                | none => (some rawPrice, false)
                | some (.ratioP p) =>
                    let eventTs : Int :=
                      match env.blockTs with
                      | some t => (t : Int)
                      | none => (env.wallClock : Int)
                    let curRat :=
                      rawPrice * 10 ^ p.ratioDecimals / (if u ≠ 0 then u else 1)
                    let capo :=
                      capPriceFromSnapshot u curRat (p.snapshot : ℚ)
                        (p.snapTs : Int) (p.maxYearlyBps : Int)
                        p.ratioDecimals eventTs
                    if rawPrice - capo > 1 / 100 then (some capo, true)
                    else (some rawPrice, true)
                | some (.stableP cap dec) =>
                    let capQ := (cap : ℚ) / 10 ^ dec
                    (some (if rawPrice ≤ capQ then rawPrice else capQ), true)
                | some .otherP => (some rawPrice, false)

/-- `ChainlinkPriceFetcher.get_price_for_block` (chainlink_price_utils
lines 685-758), fuel-bounded for the recursion through the ETH price:
direct USD feed, then the Aave-oracle token table, then the CAPO-capped
LSD computation, then the uncapped LSD computation, then the ETH-based
composition feed; `none` when no layer yields a truthy price. -/
def getPriceForBlockFuel (env : PriceEnv) : Nat → String → Option ℚ
  | 0, _ => none
  | fuel + 1, feedSymbol =>
      if feedSymbol = "" then none
      else
        let symU := pyUpper feedSymbol
        match directFeedPrice env feedSymbol with
        | some p => some p
        | none =>
            let l2 := aaveOracleTokenLayer env symU
            if truthy l2 then l2
            else
              let l3 := lsdPriceGo env (getPriceForBlockFuel env fuel) symU
              if symU ∈ LSD_CONTRACTS.map Prod.fst ∧ truthy l3.1 ∧ l3.2 = true then
                l3.1
              else
                let l4 := lsdPriceGo env (getPriceForBlockFuel env fuel) symU
                if symU ∈ LSD_CONTRACTS.map Prod.fst ∧ truthy l4.1 ∧ l4.2 = false then
                  l4.1
                else
                  let l5 : Option ℚ :=
                    if symU ∈ ETH_BASED_FEEDS_KEYS then
                      match env.ethFeedDecimals symU, env.ethFeedAnswer symU with
                      | some dec, some ans =>
                          let ethRat := (ans : ℚ) / 10 ^ dec
                          match getPriceForBlockFuel env fuel "ETH" with
                          | some ep =>
                              if ep ≠ 0 ∧ ethRat > 0 then some (ethRat * ep) else none
                          | none => none
                      | _, _ => none
                    else none
                  if truthy l5 then l5 else none

/-- Fuel budget: the recursion depth through underlying/ETH lookups is at
most 3 for every reachable symbol. -/
def PRICE_FUEL : Nat := 6

/-- `get_price_for_block` at the standard fuel. -/
def get_price_for_block (env : PriceEnv) (feedSymbol : String) : Option ℚ :=
  getPriceForBlockFuel env PRICE_FUEL feedSymbol

/-- `_get_lsd_price_for_block` at the standard fuel. -/
def lsd_price_for_block (env : PriceEnv) (sym : String) : Option ℚ × Bool :=
  lsdPriceGo env (getPriceForBlockFuel env (PRICE_FUEL - 1)) sym

/-- The underlying price `_get_lsd_price_for_block` uses at the standard
fuel. -/
def lsdUnderlyingUsed (env : PriceEnv) (sym : String) : Option ℚ :=
  lsdUnderlyingGo env (getPriceForBlockFuel env (PRICE_FUEL - 1)) sym

/-- The event timestamp `_get_lsd_price_for_block` feeds into the CAPO
cap: the block timestamp, or the wall clock if the block read raised. -/
def eventTsOf (env : PriceEnv) : Int :=
  match env.blockTs with
  | some t => (t : Int)
  | none => (env.wallClock : Int)

/-! ## The scanner's resolver `get_aave_asset_price` (scanner lines
611-779) -/

/-- Python exceptions that escape `get_aave_asset_price`. -/
inductive PyErr where
  | nameError : PyErr
deriving DecidableEq, Repr

instance {e a : Type} [DecidableEq e] [DecidableEq a] :
    DecidableEq (Except e a) := fun x y =>
  match x, y with
  | .error u, .error v =>
      if h : u = v then isTrue (by rw [h]) else isFalse (by simp [h])
  | .ok u, .ok v =>
      if h : u = v then isTrue (by rw [h]) else isFalse (by simp [h])
  | .error _, .ok _ => isFalse (by simp)
  | .ok _, .error _ => isFalse (by simp)

/-- `feed_to_use = feed_symbol if feed_symbol else symbol` (scanner line
636). -/
def feedToUseOf (symbol : String) (feedSymbol : Option String) : String :=
  match feedSymbol with
  | some f => if f = "" then symbol else f
  | none => symbol

/-- `get_lsd_exchange_rate` (scanner lines 480-524). -/
def get_lsd_exchange_rate (env : PriceEnv) (addr : String) : Option ℚ :=
  match lsdTokenLookup addr with
  | none => none
  | some cfg =>
      match env.scannerLsdRate with
      | some raw => some ((raw : ℚ) / 10 ^ cfg.decimals)
      | none => none

/-- `get_lsd_price` (scanner lines 527-608): exchange rate times the
underlying price; ETH underlyings fall back to the WETH feed, DAI falls
back to `1.0`, USDe is pinned to `1.0`. -/
def get_lsd_price (env : PriceEnv) (addr : String) : Option ℚ :=
  match lsdTokenLookup addr with
  | none => none
  | some cfg =>
      match get_lsd_exchange_rate env addr with
      | none => none
      | some rate =>
          if rate ≤ 0 then none
          else
            let u? : Option ℚ :=
              if cfg.underlying = "ETH" then
                let e1 := get_price_for_block env "ETH"
                if truthy e1 then e1 else get_price_for_block env "WETH"
              else if cfg.underlying = "DAI" then
                let d1 := get_price_for_block env "DAI"
                if truthy d1 then d1 else some 1
              else if cfg.underlying = "USDE" then some 1
              else get_price_for_block env cfg.underlying
            match u? with
            | none => none
            | some u => if u ≤ 0 then none else some (rate * u)

/-- Priority 5 of `get_aave_asset_price` (scanner lines 774-779): the
stablecoin fallback, else no price. -/
def gaapStableStep (symbol : String) : Except PyErr (Option ℚ) :=
  if is_stablecoin symbol then .ok (some 1) else .ok none

/-- Priority 4 of `get_aave_asset_price` (scanner lines 758-772): the
uncapped LSD price when positive, else fall through to priority 5. -/
def gaapRawLsdStep (env : PriceEnv) (symbol addr : String) :
    Except PyErr (Option ℚ) :=
  if is_lsd_token addr then
    match get_lsd_price env addr with
    | some p => if p > 0 then .ok (some p) else gaapStableStep symbol
    | none => gaapStableStep symbol
  else gaapStableStep symbol

/-- Priority 3 of `get_aave_asset_price` (scanner lines 706-756): the CAPO
branch. Its body evaluates the module globals `LSD_CONTRACTS` (line 720)
and `rotate_provider` (line 754); with CAPO parameters found and both
names unbound, the `NameError` raised in the `except` handler escapes the
function. (If the names were bound, the address-keyed lookup in the
symbol-keyed table would miss and the branch would fall through.) -/
def gaapCapoStep (env : PriceEnv) (symbol addr : String) :
    Except PyErr (Option ℚ) :=
  if is_lsd_token addr then
    match capoChainParams env symbol with
    | some _ =>
        if "LSD_CONTRACTS" ∈ scannerModuleGlobals then
          gaapRawLsdStep env symbol addr
        else if "rotate_provider" ∈ scannerModuleGlobals then
          gaapRawLsdStep env symbol addr
        else .error .nameError
    | none => gaapRawLsdStep env symbol addr
  else gaapRawLsdStep env symbol addr

/-- Priority 2 of `get_aave_asset_price` (scanner lines 682-704): the
Chainlink block resolver when it yields a positive price, else fall
through to priority 3. -/
def gaapChainlinkStep (env : PriceEnv) (symbol addr : String)
    (feedSymbol : Option String) : Except PyErr (Option ℚ) :=
  if feedToUseOf symbol feedSymbol = "" then gaapCapoStep env symbol addr
  else
    match get_price_for_block env (feedToUseOf symbol feedSymbol) with
    | some p => if p > 0 then .ok (some p) else gaapCapoStep env symbol addr
    | none => gaapCapoStep env symbol addr

/-- `get_aave_asset_price` (scanner lines 611-779): priority 1 tries the
Aave oracle (an exception falls through via the outer handler at line
679), then the chain of priorities 2-5. -/
def get_aave_asset_price (env : PriceEnv) (symbol addr : String)
    (feedSymbol : Option String) : Except PyErr (Option ℚ) :=
  if addr ≠ "" then
    match env.oracleAssetPrice with
    | some v =>
        if v > 0 then .ok (some ((v : ℚ) / 10 ^ 8))
        else gaapChainlinkStep env symbol addr feedSymbol
    | none => gaapChainlinkStep env symbol addr feedSymbol
  else gaapChainlinkStep env symbol addr feedSymbol

/-! ## Layered reformulation and the claim-C2 resolver -/

/-- Priority 1 of `get_aave_asset_price` as a strategy: the Aave oracle
price, when positive. -/
def oracleLayer (env : PriceEnv) (addr : String) : Option ℚ :=
  if addr ≠ "" then
    match env.oracleAssetPrice with
    | some v => if v > 0 then some ((v : ℚ) / 10 ^ 8) else none
    | none => none
  else none

/-- Priority 2 as a strategy: the Chainlink block resolver, when it yields
a positive price. -/
def chainlinkLayer (env : PriceEnv) (feedToUse : String) : Option ℚ :=
  if feedToUse = "" then none
  else
    match get_price_for_block env feedToUse with
    | some p => if p > 0 then some p else none
    | none => none

/-- Priority 3 as a strategy: the broken CAPO branch. It never produces a
price: with parameters found it raises the `NameError`, otherwise it falls
through. -/
def brokenCapoLayer (env : PriceEnv) (symbol addr : String) :
    Except PyErr (Option ℚ) :=
  if is_lsd_token addr then
    match capoChainParams env symbol with
    | some _ =>
        if "LSD_CONTRACTS" ∈ scannerModuleGlobals then .ok none
        else if "rotate_provider" ∈ scannerModuleGlobals then .ok none
        else .error .nameError
    | none => .ok none
  else .ok none

/-- Priority 4 as a strategy: the uncapped LSD price, when positive. -/
def rawLsdLayer (env : PriceEnv) (addr : String) : Option ℚ :=
  if is_lsd_token addr then
    match get_lsd_price env addr with
    | some p => if p > 0 then some p else none
    | none => none
  else none

/-- Priority 5 as a strategy: the stablecoin fallback. -/
def stableLayer (symbol : String) : Option ℚ :=
  if is_stablecoin symbol then some 1 else none

/-- First hit of a list of strategies: an error propagates, the first
produced price is returned, and an exhausted list yields no price. -/
def firstLayerHit : List (Except PyErr (Option ℚ)) → Except PyErr (Option ℚ)
  | [] => .ok none
  | l :: ls =>
      match l with
      | .error e => .error e
      | .ok (some p) => .ok (some p)
      | .ok none => firstLayerHit ls

/-- First positive price of a list of optional prices. -/
def firstPositive : List (Option ℚ) → Option ℚ
  | [] => none
  | some p :: ls => if p > 0 then some p else firstPositive ls
  | none :: ls => firstPositive ls

/-- The raw-LSD computation of claim C2's layers 3 and 4, following the
claim's wording: the exchange rate from the LSD table times the underlying
USD price (the dedicated stETH feed for wstETH), returning the underlying
price together with the raw LSD price. -/
def specRawLsd (env : PriceEnv) (fuel : Nat) (symU : String) :
    Option (ℚ × ℚ) :=
  match lsdContractLookup symU with
  | none => none
  | some cfg =>
      match env.lsdRate symU with
      | none => none
      | some raw =>
          let rate : ℚ := (raw : ℚ) / 10 ^ cfg.decimals
          match lsdUnderlyingGo env (getPriceForBlockFuel env fuel) symU with
          | none => none
          | some u => some (u, u * rate)

/-- Formalization of claim C2's wording: try, in strict order, the Aave V3
oracle, the direct Chainlink USD feed, the CAPO-protected LSD price, the
raw LSD price, the ETH-based composition feed, and the stablecoin fallback
of `1.0`, returning the first non-zero positive result and `none` if every
layer yields none. -/
def specPriceResolverFuel (env : PriceEnv) :
    Nat → String → String → Option String → Option ℚ
  | 0, _, _, _ => none
  | fuel + 1, symbol, addr, feedSymbol =>
      let symU := pyUpper symbol
      let l1 : Option ℚ :=
        if addr ≠ "" then
          match env.oracleAssetPrice with
          | some v => some ((v : ℚ) / 10 ^ 8)
          | none => none
        else none
      let l2 : Option ℚ := directFeedPrice env (feedToUseOf symbol feedSymbol)
      let l3 : Option ℚ :=
        if symU ∈ CAPO_ADAPTERS_KEYS then
          match capoChainParams env symbol, specRawLsd env fuel symU with
          | some p, some (u, rawPrice) =>
              let maxA := maxAllowedRat p (eventTsOf env)
              let curRat := rawPrice * 10 ^ p.ratioDecimals / u
              some (u * min curRat maxA / 10 ^ p.ratioDecimals)
          | _, _ => none
        else none
      let l4 : Option ℚ := (specRawLsd env fuel symU).map Prod.snd
      let l5 : Option ℚ :=
        if symU ∈ ETH_BASED_FEEDS_KEYS then
          match env.ethFeedDecimals symU, env.ethFeedAnswer symU with
          | some dec, some ans =>
              match specPriceResolverFuel env fuel "ETH" "" (some "ETH") with
              | some ep => some ((ans : ℚ) / 10 ^ dec * ep)
              | none => none
          | _, _ => none
        else none
      let l6 : Option ℚ := if is_stablecoin symbol then some 1 else none
      firstPositive [l1, l2, l3, l4, l5, l6]

/-- Claim C2's resolver at the standard fuel. -/
def specPriceResolver (env : PriceEnv) (symbol addr : String)
    (feedSymbol : Option String) : Option ℚ :=
  specPriceResolverFuel env PRICE_FUEL symbol addr feedSymbol

/-! ## Concrete environments and inputs used by the counterexamples -/

/-- The wstETH contract address (lower-case). -/
def wstethAddr : String := "0x7f39c581f595b53c5cb19bd0b3f8da6c935e2ca0"

/-- An environment in which every price source fails but the CAPO adapter
reads for wstETH succeed: the Aave oracle call raises, the direct WSTETH
feed has no code, the exchange-rate calls raise. -/
def envCapoOnly : PriceEnv :=
  { hasCode := fun _ => false
    feedDecimals := fun _ => none
    feedAnswer := fun _ => none
    aaveOracleTokenPrice := fun _ => none
    lsdRate := fun _ => none
    stethFeedDecimals := none
    stethFeedAnswer := none
    capoChain := fun s =>
      if s = "WSTETH" then some ⟨1000000000000000000, 0, 968, 18⟩ else none
    capoJson := fun _ => none
    blockTs := some 1700000000
    wallClock := 1700000000
    ethFeedDecimals := fun _ => none
    ethFeedAnswer := fun _ => none
    oracleAssetPrice := none
    scannerLsdRate := none }

/-- An environment in which the wstETH CAPO path runs to completion with a
current ratio slightly above the allowed maximum: exchange rate `1.005`,
stETH/USD price `1.0`, snapshot ratio `10^18`, zero allowed yearly growth.
The raw price `1.005` exceeds the capped price `1.0` by only `0.005`, so
the code persists the raw price. -/
def envCapoTie : PriceEnv :=
  { hasCode := fun _ => false
    feedDecimals := fun _ => none
    feedAnswer := fun _ => none
    aaveOracleTokenPrice := fun _ => none
    lsdRate := fun s =>
      if s = "WSTETH" then some 1005000000000000000 else none
    stethFeedDecimals := some 8
    stethFeedAnswer := some 100000000
    capoChain := fun s =>
      if s = "WSTETH" then some ⟨1000000000000000000, 0, 0, 18⟩ else none
    capoJson := fun _ => none
    blockTs := some 1700000000
    wallClock := 1700000000
    ethFeedDecimals := fun _ => none
    ethFeedAnswer := fun _ => none
    oracleAssetPrice := none
    scannerLsdRate := none }

/-- The CAPO parameters `envCapoTie` serves for wstETH. -/
def capoTieParams : CapoParams := ⟨1000000000000000000, 0, 0, 18⟩

/-- A gap-fill fetch environment returning one new decodable
`LiquidationCall` log at block 250 for any queried subrange. -/
def gapFetchWithEvent : Nat → Nat → Option (List GapLog) :=
  fun _ _ =>
    some [{ txLower := "0xabc"
            row :=
              { blockNum := 250, ts := 1700000000
                datetimeUtc := "2023-11-14 22:13:20"
                collateralSymbol := "WETH", debtSymbol := "USDC"
                collateralAmount := 1000000000000000000
                debtToCover := 2000000000
                collateralDecimals := 18, debtDecimals := 6
                priceCollateral := 2000, priceDebt := 1
                txHash := "0xABC", user := "0xu", liquidator := "0xl"
                collateralAsset := "0xc", debtAsset := "0xd"
                receiveAToken := false, blockBuilder := "0xb"
                gasUsed := 210000, gasPriceGwei := 30
                ethPrice := some 2000 } }]

/-- The valid block values of the CSV rows, as the checkpoint logic
filters them: truthy and below `MAX_VALID_BLOCK`. -/
def validBlocks (rows : List CsvRow) : List Int :=
  rows.filterMap (fun r =>
    if rowBlockOrZero r ≠ 0 ∧ rowBlockOrZero r < MAX_VALID_BLOCK then
      some (rowBlockOrZero r)
    else none)

/-- The resume rule as claim C4 must be amended: the maximum over the
valid block values, plus one; the genesis block when no row has a valid
block. -/
def resumeBlockAmended (rows : List CsvRow) (fromBlock : Int) : Int :=
  match validBlocks rows with
  | [] => fromBlock
  | b :: bs => (bs.foldl max b) + 1

/-! # Theorems -/

/-! ## Helper lemmas -/

lemma normalizeNumericCell_ok (parse : String → Option ℚ) (c : Cell) :
    cellNumOrBlank (normalizeNumericCell parse c) = true := by
  cases c with
  | num q => rfl
  | blank => rfl
  | str s =>
      simp only [normalizeNumericCell]
      cases h : parse s <;> rfl

lemma roundHalfEven_le (r : ℚ) : (roundHalfEven r : ℚ) ≤ r + 1 / 2 := by
  unfold roundHalfEven
  have hfl : (⌊r⌋ : ℚ) ≤ r := Int.floor_le r
  split_ifs <;> push_cast <;> linarith

lemma pyRound8_le (q : ℚ) : pyRound q 8 ≤ q + 1 / 200000000 := by
  unfold pyRound
  have h := roundHalfEven_le (q * 10 ^ 8)
  have h8 : (0 : ℚ) < 10 ^ 8 := by norm_num
  calc ((roundHalfEven (q * 10 ^ 8) : ℚ)) / 10 ^ 8
      ≤ (q * 10 ^ 8 + 1 / 2) / 10 ^ 8 := (div_le_div_iff_of_pos_right h8).mpr h
    _ = q + 1 / 200000000 := by ring

/-- The growth formula inside `cap_price_from_ratio` equals the claim's
`max_ratio` formula. -/
lemma capGrowth_eq (snap bps elapsed : ℚ) :
    snap + (snap * bps * 1000000 / (10000 * secondsPerYear)) * elapsed / 1000000 =
      snap + snap * bps * elapsed / (10000 * secondsPerYear) := by
  unfold secondsPerYear
  ring

/-- The capped price is bounded by the claim's `max_ratio` bound, up to the
half-ulp of the final 8-decimal quantization. -/
lemma capPriceFromSnapshot_le (u curRat : ℚ) (pr : CapoParams) (eventTs : Int)
    (hu : 0 < u) :
    capPriceFromSnapshot u curRat (pr.snapshot : ℚ) (pr.snapTs : Int)
        (pr.maxYearlyBps : Int) pr.ratioDecimals eventTs ≤
      u * maxAllowedRat pr eventTs / 10 ^ pr.ratioDecimals + 1 / 200000000 := by
  unfold capPriceFromSnapshot maxAllowedRat
  have hd : (0 : ℚ) < 10 ^ pr.ratioDecimals := by positivity
  split_ifs with h0
  · have hnum : (0 : ℚ) ≤
        (pr.snapshot : ℚ) * (pr.maxYearlyBps : ℚ) *
          max 0 ((eventTs : ℚ) - (pr.snapTs : ℚ)) := by positivity
    have hb : (0 : ℚ) ≤
        u * ((pr.snapshot : ℚ) +
          (pr.snapshot : ℚ) * (pr.maxYearlyBps : ℚ) *
            max 0 ((eventTs : ℚ) - (pr.snapTs : ℚ)) /
              (10000 * secondsPerYear)) / 10 ^ pr.ratioDecimals := by
      have hsy : (0 : ℚ) < 10000 * secondsPerYear := by
        unfold secondsPerYear; norm_num
      positivity
    linarith
  · set elapsed : ℚ := max 0 ((eventTs : ℚ) - (pr.snapTs : ℚ)) with helap
    set maxA : ℚ := (pr.snapshot : ℚ) +
        ((pr.snapshot : ℚ) * (pr.maxYearlyBps : ℚ) * 1000000 /
          (10000 * secondsPerYear)) * elapsed / 1000000 with hmaxA
    have hEq : maxA = (pr.snapshot : ℚ) +
        (pr.snapshot : ℚ) * (pr.maxYearlyBps : ℚ) * elapsed /
          (10000 * secondsPerYear) := by
      rw [hmaxA]; exact capGrowth_eq _ _ _
    have heff : (if curRat ≤ maxA then curRat else maxA) ≤ maxA := by
      split_ifs with hc
      · exact hc
      · exact le_refl _
    have hmul : u * (if curRat ≤ maxA then curRat else maxA) ≤ u * maxA :=
      mul_le_mul_of_nonneg_left heff (le_of_lt hu)
    have hdiv : u * (if curRat ≤ maxA then curRat else maxA) / 10 ^ pr.ratioDecimals ≤
        u * maxA / 10 ^ pr.ratioDecimals := (div_le_div_iff_of_pos_right hd).mpr hmul
    have hq := pyRound8_le
      (u * (if curRat ≤ maxA then curRat else maxA) / 10 ^ pr.ratioDecimals)
    have : u * maxA / 10 ^ pr.ratioDecimals =
        u * maxAllowedRat pr eventTs / 10 ^ pr.ratioDecimals := by
      rw [hEq]; rfl
    calc pyRound (u * (if curRat ≤ maxA then curRat else maxA) / 10 ^ pr.ratioDecimals) 8
        ≤ u * (if curRat ≤ maxA then curRat else maxA) / 10 ^ pr.ratioDecimals +
            1 / 200000000 := hq
      _ ≤ u * maxA / 10 ^ pr.ratioDecimals + 1 / 200000000 := by linarith
      _ = u * maxAllowedRat pr eventTs / 10 ^ pr.ratioDecimals + 1 / 200000000 := by
          rw [this]

/-! ## Claim C4: resume block derivation -/

lemma maxSeenStep_valid {r : CsvRow}
    (hv : rowBlockOrZero r ≠ 0 ∧ rowBlockOrZero r < MAX_VALID_BLOCK)
    (acc : Option Int) :
    maxSeenStep acc r =
      (match acc with
       | none => some (rowBlockOrZero r)
       | some m => some (max m (rowBlockOrZero r))) := by
  unfold maxSeenStep
  rw [if_pos hv]
  cases acc with
  | none => rfl
  | some m =>
      rcases lt_or_ge m (rowBlockOrZero r) with hlt | hge
      · simp [hlt, max_eq_right hlt.le]
      · have hn : ¬ (rowBlockOrZero r > m) := not_lt.mpr hge
        simp [hn, max_eq_left hge]

lemma maxSeenStep_invalid {r : CsvRow}
    (hv : ¬ (rowBlockOrZero r ≠ 0 ∧ rowBlockOrZero r < MAX_VALID_BLOCK))
    (acc : Option Int) : maxSeenStep acc r = acc := by
  unfold maxSeenStep
  rw [if_neg hv]

lemma validBlocks_cons_valid {r : CsvRow} (rs : List CsvRow)
    (hv : rowBlockOrZero r ≠ 0 ∧ rowBlockOrZero r < MAX_VALID_BLOCK) :
    validBlocks (r :: rs) = rowBlockOrZero r :: validBlocks rs := by
  unfold validBlocks
  rw [List.filterMap_cons]
  simp [hv]

lemma validBlocks_cons_invalid {r : CsvRow} (rs : List CsvRow)
    (hv : ¬ (rowBlockOrZero r ≠ 0 ∧ rowBlockOrZero r < MAX_VALID_BLOCK)) :
    validBlocks (r :: rs) = validBlocks rs := by
  unfold validBlocks
  rw [List.filterMap_cons]
  simp [hv]

lemma maxBlockSeen_foldl (rows : List CsvRow) (acc : Option Int) :
    rows.foldl maxSeenStep acc =
      (match acc, validBlocks rows with
       | none, [] => none
       | none, b :: bs => some (bs.foldl max b)
       | some m, vs => some (vs.foldl max m)) := by
  induction rows generalizing acc with
  | nil => cases acc <;> rfl
  | cons r rs ih =>
      rw [List.foldl_cons]
      by_cases hv : rowBlockOrZero r ≠ 0 ∧ rowBlockOrZero r < MAX_VALID_BLOCK
      · rw [maxSeenStep_valid hv acc, validBlocks_cons_valid rs hv]
        cases acc with
        | none => rw [ih (some (rowBlockOrZero r))]
        | some m => rw [ih (some (max m (rowBlockOrZero r)))]; rfl
      · rw [maxSeenStep_invalid hv acc, validBlocks_cons_invalid rs hv]
        exact ih acc

lemma maxBlockSeen_eq (rows : List CsvRow) :
    maxBlockSeen rows =
      (match validBlocks rows with
       | [] => none
       | b :: bs => some (bs.foldl max b)) := by
  unfold maxBlockSeen
  rw [maxBlockSeen_foldl rows none]
  cases validBlocks rows <;> rfl

lemma foldl_max_mem (bs : List Int) (b : Int) : bs.foldl max b ∈ b :: bs := by
  induction bs generalizing b with
  | nil => simp
  | cons c cs ih =>
      simp only [List.foldl_cons]
      rcases List.mem_cons.mp (ih (max b c)) with h | h
      · rw [h]
        rcases max_choice b c with he | he <;> rw [he] <;> simp
      · exact List.mem_cons_of_mem _ (List.mem_cons_of_mem _ h)

lemma mem_validBlocks {x : Int} {rows : List CsvRow} (h : x ∈ validBlocks rows) :
    x ≠ 0 ∧ x < MAX_VALID_BLOCK := by
  unfold validBlocks at h
  rcases List.mem_filterMap.mp h with ⟨r, _, hf⟩
  by_cases hv : rowBlockOrZero r ≠ 0 ∧ rowBlockOrZero r < MAX_VALID_BLOCK
  · rw [if_pos hv] at hf
    exact (Option.some.inj hf) ▸ hv
  · rw [if_neg hv] at hf
    exact absurd hf (by simp)

lemma validBlocks_rows_pos {rows : List CsvRow} (h : validBlocks rows ≠ []) :
    rows.length > 0 := by
  cases rows with
  | nil => simp [validBlocks] at h
  | cons r rs => simp

/-- Claim C4 counterexample: a CSV whose single row carries the block value
60,000,000 (at or above the code's `MAX_VALID_BLOCK` sanity bound). The
claim says scanning begins at max-block-plus-one, 60,000,001; the code
ignores the row and starts from the genesis block 16,000,000. -/
theorem C4_counterexample :
    resumeBlock [⟨BlockField.val 60000000⟩] FROM_BLOCK_DEFAULT = 16000000 ∧
    resumeBlockSpec [⟨BlockField.val 60000000⟩] FROM_BLOCK_DEFAULT = 60000001 ∧
    (16000000 : Int) ≠ 60000001 := by
  refine ⟨rfl, rfl, by decide⟩

/-- Claim C4, amended: on scanner start the resume block is derived from
the canonical CSV alone; if some row carries a valid block value (non-zero
and below 50,000,000), scanning begins at the maximum such value plus one;
otherwise scanning begins at the configured genesis block (16,000,000 by
default, overridable via environment variable). -/
theorem C4_resume_from_csv_amended :
    ∀ (rows : List CsvRow) (fromBlock : Int),
      resumeBlock rows fromBlock = resumeBlockAmended rows fromBlock := by
  intro rows fromBlock
  unfold resumeBlock resumeBlockAmended
  rw [maxBlockSeen_eq rows]
  cases hv : validBlocks rows with
  | nil => rfl
  | cons b bs =>
      have hmem : bs.foldl max b ∈ validBlocks rows := by
        rw [hv]; exact foldl_max_mem bs b
      have hne : bs.foldl max b ≠ 0 := (mem_validBlocks hmem).1
      have hlen : rows.length > 0 :=
        validBlocks_rows_pos (by rw [hv]; exact List.cons_ne_nil b bs)
      simp [hne, hlen]

/-! ## Claim C5: duplicate-suppressing append -/

lemma existingTxs_append (file : List TxRow) (row : TxRow) (h : row.tx ≠ "") :
    existingTxs (file ++ [row]) = existingTxs file ++ [pyLower row.tx] := by
  unfold existingTxs
  rw [List.filter_append, List.map_append]
  simp [h]

/-- Claim C5 counterexample: the file holds one row with an empty tx cell,
and a second row with an empty tx cell is appended. Its tx value is
already present in the file (case-insensitively), yet the function writes
it and returns true. -/
theorem C5_counterexample :
    (append_row_if_tx_missing [⟨"", "r0"⟩] ⟨"", "r1"⟩).2 = true ∧
    txPresent [⟨"", "r0"⟩] ⟨"", "r1"⟩ ∧
    (append_row_if_tx_missing [⟨"", "r0"⟩] ⟨"", "r1"⟩).1 =
      [⟨"", "r0"⟩, ⟨"", "r1"⟩] := by
  refine ⟨rfl, ?_, rfl⟩
  exact ⟨⟨"", "r0"⟩, by simp⟩

/-- Claim C5, amended: a row with an empty tx value is always appended;
for a row whose tx value is non-empty (after lowercasing), the append
writes the row iff its lowercased tx is not among the lowercased non-empty
tx values already in the file, it returns true iff it wrote, and it
preserves uniqueness of the non-empty tx values. -/
theorem C5_append_dedupe_amended :
    ∀ (file : List TxRow) (row : TxRow), pyLower row.tx ≠ "" →
      ((append_row_if_tx_missing file row).2 = true ↔
        pyLower row.tx ∉ existingTxs file) ∧
      (append_row_if_tx_missing file row).1 =
        (if pyLower row.tx ∈ existingTxs file then file else file ++ [row]) ∧
      ((existingTxs file).Nodup →
        (existingTxs (append_row_if_tx_missing file row).1).Nodup) := by
  intro file row h
  have ho : row.tx ≠ "" := by
    intro he
    apply h
    rw [he]
    rfl
  unfold append_row_if_tx_missing
  rw [if_neg h]
  by_cases hm : pyLower row.tx ∈ existingTxs file
  · rw [if_pos hm, if_pos hm]
    refine ⟨?_, rfl, fun hnd => hnd⟩
    simp [hm]
  · rw [if_neg hm, if_neg hm]
    refine ⟨?_, rfl, ?_⟩
    · simp [hm]
    · intro hnd
      rw [existingTxs_append file row ho, List.nodup_append]
      refine ⟨hnd, List.nodup_singleton _, ?_⟩
      intro x hx hx'
      rw [List.mem_singleton] at hx'
      exact hm (hx' ▸ hx)

/-- Witness for the amended claim C5 at a concrete input: appending tx
"0xAA" to a file already holding "0xaa" is refused. -/
theorem C5_append_dedupe_amended_witness :
    (pyLower "0xAA" ≠ "") ∧
    (((append_row_if_tx_missing [⟨"0xaa", "r0"⟩] ⟨"0xAA", "r1"⟩).2 = true ↔
        pyLower "0xAA" ∉ existingTxs [⟨"0xaa", "r0"⟩]) ∧
      (append_row_if_tx_missing [⟨"0xaa", "r0"⟩] ⟨"0xAA", "r1"⟩).1 =
        (if pyLower "0xAA" ∈ existingTxs [⟨"0xaa", "r0"⟩] then
          [⟨"0xaa", "r0"⟩] else [⟨"0xaa", "r0"⟩] ++ [⟨"0xAA", "r1"⟩]) ∧
      ((existingTxs [⟨"0xaa", "r0"⟩]).Nodup →
        (existingTxs (append_row_if_tx_missing [⟨"0xaa", "r0"⟩]
          ⟨"0xAA", "r1"⟩).1).Nodup)) :=
  ⟨by decide, C5_append_dedupe_amended [⟨"0xaa", "r0"⟩] ⟨"0xAA", "r1"⟩ (by decide)⟩

/-! ## Claim C6: status file freshness -/

/-- Claim C6 counterexample: with a CSV holding one row at block
17,000,000, the idle status write carries `from_block = 16000000` (the
configured genesis, not the CSV minimum 17,000,000) and `events_found = 0`
(not the row count 1), so the written payload is not computed fresh from
the CSV. -/
theorem C6_counterexample :
    ¬ statusFreshFromCsv (idleStatusPayload FROM_BLOCK_DEFAULT)
        [⟨BlockField.val 17000000⟩] ∧
    (idleStatusPayload FROM_BLOCK_DEFAULT).from_block = 16000000 ∧
    csvMinBlock [⟨BlockField.val 17000000⟩] = some 17000000 ∧
    (idleStatusPayload FROM_BLOCK_DEFAULT).events_found = 0 ∧
    ([⟨BlockField.val 17000000⟩] : List CsvRow).length = 1 := by
  refine ⟨?_, rfl, rfl, rfl, rfl⟩
  decide

/-- Claim C6, amended: only the `sync_scan_status_from_csv` helper
recomputes `from_block` and `events_found` from the CSV on each write;
`main.write_status` reuses the from-block snapshot taken once at scan
start together with the caller's in-memory event counter, and the idle
status write carries the configured genesis block and zero events
regardless of the CSV contents. -/
theorem C6_status_fields_amended :
    ∀ (rows : List CsvRow) (fromBlock sfb : Int) (st : String) (ef : Nat),
      (idleStatusPayload fromBlock).from_block = fromBlock ∧
      (idleStatusPayload fromBlock).events_found = 0 ∧
      (writeStatusPayload sfb ef st).from_block = sfb ∧
      (writeStatusPayload sfb ef st).events_found = ef ∧
      (syncStatusPayload rows fromBlock st).from_block =
        statusFromBlockAtStart rows fromBlock ∧
      (syncStatusPayload rows fromBlock st).events_found =
        (if rows.isEmpty then 0 else rows.length) := by
  intro rows fromBlock sfb st ef
  exact ⟨rfl, rfl, rfl, rfl, rfl, rfl⟩

/-! ## Claim C7: chunked log reader error handling -/

/-- Claim C7 counterexample: reading [100, 199] with two providers where
provider 0 fails with a generic network error and provider 1 would return
the log at block 150. The code's reader (bound to the single current
provider) skips the subrange immediately and returns no logs; the reader
described by the claim rotates to provider 1, retries the same subrange
and returns the log. -/
theorem C7_counterexample :
    get_logs_chunked (c7envP 0) 100 199 1000 64 10 = [] ∧
    getLogsChunkedSpec c7envP 2 100 199 1000 64 10 = [150] := by
  exact ⟨rfl, rfl⟩

/-- Claim C7, amended: in `get_logs_chunked` a range-exceeded error halves
the chunk (floor `min_chunk`) and retries without advancing the cursor,
while a generic error skips the subrange immediately — the cursor advances
past it, no logs are added, and no provider rotation happens; the skipped
subrange is left for the gap-detection phase. -/
theorem C7_chunk_error_handling_amended :
    ∀ (fromBlock : Int) (minChunk : Nat) (s : ChunkState),
      chunkStep (fun _ _ => FetchOutcome.rangeErr) fromBlock minChunk s =
        (if s.cursor < fromBlock then s
         else { s with chunk := max minChunk (s.chunk / 2) }) ∧
      chunkStep (fun _ _ => FetchOutcome.otherErr) fromBlock minChunk s =
        (if s.cursor < fromBlock then s
         else { s with cursor := chunkFrm fromBlock s - 1 }) := by
  intro fromBlock minChunk s
  constructor <;> (unfold chunkStep; split <;> rfl)

/-! ## Claim C8: adaptive batch sizing -/

/-- Claim C8 counterexample: after a provider-limit rejection (which sets
the growth-disable flag and halves the batch to 500), a second rejection
at the floor rotates the provider, resets the batch to 1000 and clears the
flag, and the next success doubles the batch to 2000 — the batch grows
again after a provider-limit signal was observed in the session. -/
theorem C8_counterexample :
    (batchRun batchInit [BatchEvent.providerLimitError true]).limitDetected =
      true ∧
    batchRun batchInit [BatchEvent.providerLimitError true] =
      ⟨500, true, 1⟩ ∧
    batchRun batchInit
        [BatchEvent.providerLimitError true, BatchEvent.providerLimitError true,
         BatchEvent.success] = ⟨2000, false, 0⟩ ∧
    (2000 : Nat) > 500 := by
  exact ⟨rfl, rfl, rfl, by decide⟩

/-- Claim C8, amended: the batch starts at 1000, doubles on success up to
the 10000 ceiling while no provider-limit signal is flagged, does not grow
on success while the flag is set, and on a provider rejection (below the
consecutive-error rotation threshold) halves down to the 500 floor
setting the flag — but a rejection at the floor with a successful provider
rotation resets the batch to 1000 and clears the flag, re-enabling
growth. -/
theorem C8_adaptive_batch_amended :
    ∀ (b ce : Nat) (l rok : Bool),
      batchInit.batch = INITIAL_BATCH_SIZE ∧
      batchStep ⟨b, true, ce⟩ BatchEvent.success = ⟨b, true, 0⟩ ∧
      batchStep ⟨b, false, ce⟩ BatchEvent.success =
        ⟨if b < MAX_BATCH_SIZE then min (b * 2) MAX_BATCH_SIZE else b,
          false, 0⟩ ∧
      batchStep ⟨b, l, ce⟩ (BatchEvent.providerLimitError rok) =
        (if ce + 1 ≥ MAX_CONSECUTIVE_ERRORS then ⟨b, l, 0⟩
         else if b > MIN_BATCH_SIZE then
           ⟨max (b / 2) MIN_BATCH_SIZE, true, ce + 1⟩
         else if rok then ⟨INITIAL_BATCH_SIZE, false, 0⟩
         else ⟨b, l, ce + 1⟩) := by
  intro b ce l rok
  refine ⟨rfl, ?_, ?_, ?_⟩
  · simp [batchStep]
  · by_cases hb : b < MAX_BATCH_SIZE <;> simp [batchStep, hb]
  · rfl

/-! ## Claim C9: numeric columns are numbers or empty -/

/-- Claim C9, confirmed: in every row the scanner writes, each numeric
column holds a number or the empty value, never a non-numeric token — for
the forward sweep (whose rows pass `normalize_event_data_for_write`) and
for the rows the gap-filling phase constructs alike, for every event, for
every behaviour of the string-to-float parser. -/
theorem C9_numeric_fields_numeric_or_empty :
    ∀ (parse : String → Option ℚ) (eventData : String → Cell)
      (i : GapRowInputs),
      (NUMERIC_FIELD_NAMES.all
        (fun f => cellNumOrBlank (forwardSweepRowCell parse eventData f)) =
          true) ∧
      (NUMERIC_FIELD_NAMES.all
        (fun f => cellNumOrBlank (gapRowCell i f)) = true) := by
  intro parse eventData i
  have hsub : ∀ x ∈ NUMERIC_FIELD_NAMES, x ∈ CSV_FIELD_ORDER := by decide
  constructor
  · rw [List.all_eq_true]
    intro f hf
    unfold forwardSweepRowCell
    rw [if_pos (hsub f hf)]
    unfold normalize_event_data_for_write
    rw [if_pos hf]
    exact normalizeNumericCell_ok parse _
  · rw [List.all_eq_true]
    intro f hf
    fin_cases hf
    · by_cases h : i.priceCollateral = 0 <;> simp [gapRowCell, h, cellNumOrBlank]
    · by_cases h : i.priceDebt = 0 <;> simp [gapRowCell, h, cellNumOrBlank]
    · by_cases h : i.priceCollateral > 0 ∧ i.priceDebt > 0 <;>
        simp [gapRowCell, h, cellNumOrBlank]
    · by_cases h : i.priceCollateral > 0 ∧ i.priceDebt > 0 <;>
        simp [gapRowCell, h, cellNumOrBlank]
    · rfl
    · by_cases h : i.gasPriceGwei = 0 <;> simp [gapRowCell, h, cellNumOrBlank]
    · rcases he : i.ethPrice with _ | e
      · simp [gapRowCell, he, cellNumOrBlank]
      · by_cases h : e = 0 <;> simp [gapRowCell, he, h, cellNumOrBlank]
    · rfl
    · rfl

/-! ## Claim C1: the gap-fill phase -/

lemma gapBatchAppends_nil (fetch : Nat → Nat → Option (List GapLog))
    (existing : List String) (gapFrom gapTo : Nat) :
    gapBatchAppends fetch existing gapFrom gapTo = [] := by
  have hn : "mark_provider_success" ∉ scannerModuleGlobals := by decide
  unfold gapBatchAppends
  cases fetch gapFrom gapTo with
  | none => rfl
  | some logs => exact if_neg hn

lemma gapWalk_nil (fetch : Nat → Nat → Option (List GapLog))
    (existing : List String) (batchSize gapEnd : Nat) :
    ∀ (fuel gapFrom : Nat),
      gapWalk fetch existing batchSize gapEnd fuel gapFrom = [] := by
  intro fuel
  induction fuel with
  | zero => intro gapFrom; rfl
  | succ n ih =>
      intro gapFrom
      unfold gapWalk
      split
      · rfl
      · rw [gapBatchAppends_nil, ih]
        rfl

/-- Claim C1 (supporting theorem for the code bug): the gap-fill phase
never appends a single row, for every fetch environment, dedupe set,
batch size and fuel — after a successful fetch the undefined name
`mark_provider_success` raises a `NameError` that drops the whole batch,
and the append import of the nonexistent `tools.csv_utils_clean` module
would fail anyway. Concretely, for the pass that recorded scanned ranges
[(100,199), (300,399)], the gap (200,299) is correctly detected and its
fetch would return a new decodable event, yet nothing is appended. -/
theorem C1_gap_fill_never_appends :
    (∀ (fetch : Nat → Nat → Option (List GapLog)) (existing : List String)
        (batchSize fuel : Nat) (ranges : List (Nat × Nat)),
      gapFillAppends fetch existing batchSize fuel ranges = []) ∧
    computeGaps [(100, 199), (300, 399)] = [(200, 299)] ∧
    (gapFetchWithEvent 200 299).map (fun l => l.map (fun lg => lg.txLower)) =
      some ["0xabc"] ∧
    gapFillAppends gapFetchWithEvent [] 500 10 [(100, 199), (300, 399)] = [] := by
  have hall : ∀ (fetch : Nat → Nat → Option (List GapLog))
      (existing : List String) (batchSize fuel : Nat)
      (ranges : List (Nat × Nat)),
      gapFillAppends fetch existing batchSize fuel ranges = [] := by
    intro fetch existing batchSize fuel ranges
    unfold gapFillAppends
    have h : ∀ gaps : List (Nat × Nat),
        (gaps.flatMap fun g =>
          gapWalk fetch existing batchSize g.2 fuel g.1) = [] := by
      intro gaps
      induction gaps with
      | nil => rfl
      | cons g gs ih =>
          rw [List.flatMap_cons, gapWalk_nil, ih]
          rfl
    exact h (computeGaps ranges)
  exact ⟨hall, by decide, rfl, hall _ _ _ _ _⟩

/-! ## Claim C2: resolver layer order -/

lemma gaapStable_eq (symbol : String) :
    gaapStableStep symbol = firstLayerHit [.ok (stableLayer symbol)] := by
  unfold gaapStableStep stableLayer firstLayerHit
  split <;> rfl

lemma gaapRawLsd_eq (env : PriceEnv) (symbol addr : String) :
    gaapRawLsdStep env symbol addr =
      firstLayerHit [.ok (rawLsdLayer env addr), .ok (stableLayer symbol)] := by
  by_cases hl : is_lsd_token addr = true
  · cases hg : get_lsd_price env addr with
    | none =>
        simp [gaapRawLsdStep, rawLsdLayer, hl, hg, gaapStable_eq, firstLayerHit]
    | some p =>
        by_cases hp : p > 0
        · simp [gaapRawLsdStep, rawLsdLayer, hl, hg, hp, firstLayerHit]
        · simp [gaapRawLsdStep, rawLsdLayer, hl, hg, hp, gaapStable_eq,
            firstLayerHit]
  · simp [gaapRawLsdStep, rawLsdLayer, hl, gaapStable_eq, firstLayerHit]

lemma gaapCapo_eq (env : PriceEnv) (symbol addr : String) :
    gaapCapoStep env symbol addr =
      firstLayerHit [brokenCapoLayer env symbol addr,
        .ok (rawLsdLayer env addr), .ok (stableLayer symbol)] := by
  have h1 : "LSD_CONTRACTS" ∉ scannerModuleGlobals := by decide
  have h2 : "rotate_provider" ∉ scannerModuleGlobals := by decide
  by_cases hl : is_lsd_token addr = true
  · cases hc : capoChainParams env symbol with
    | none =>
        simp [gaapCapoStep, brokenCapoLayer, hl, hc, gaapRawLsd_eq,
          firstLayerHit]
    | some pr =>
        simp [gaapCapoStep, brokenCapoLayer, hl, hc, h1, h2, firstLayerHit]
  · simp [gaapCapoStep, brokenCapoLayer, hl, gaapRawLsd_eq, firstLayerHit]

lemma gaapChainlink_eq (env : PriceEnv) (symbol addr : String)
    (feedSymbol : Option String) :
    gaapChainlinkStep env symbol addr feedSymbol =
      firstLayerHit [.ok (chainlinkLayer env (feedToUseOf symbol feedSymbol)),
        brokenCapoLayer env symbol addr,
        .ok (rawLsdLayer env addr), .ok (stableLayer symbol)] := by
  by_cases hf : feedToUseOf symbol feedSymbol = ""
  · simp [gaapChainlinkStep, chainlinkLayer, hf, gaapCapo_eq, firstLayerHit]
  · cases hg : get_price_for_block env (feedToUseOf symbol feedSymbol) with
    | none =>
        simp [gaapChainlinkStep, chainlinkLayer, hf, hg, gaapCapo_eq,
          firstLayerHit]
    | some p =>
        by_cases hp : p > 0
        · simp [gaapChainlinkStep, chainlinkLayer, hf, hg, hp, firstLayerHit]
        · simp [gaapChainlinkStep, chainlinkLayer, hf, hg, hp, gaapCapo_eq,
            firstLayerHit]

/-- Shared reformulation: `get_aave_asset_price` is the first hit of the
five strategies in their code order. -/
lemma gaap_layers_eq (env : PriceEnv) (symbol addr : String)
    (feedSymbol : Option String) :
    get_aave_asset_price env symbol addr feedSymbol =
      firstLayerHit
        [.ok (oracleLayer env addr),
         .ok (chainlinkLayer env (feedToUseOf symbol feedSymbol)),
         brokenCapoLayer env symbol addr,
         .ok (rawLsdLayer env addr),
         .ok (stableLayer symbol)] := by
  by_cases ha : addr = ""
  · simp [get_aave_asset_price, oracleLayer, ha, gaapChainlink_eq,
      firstLayerHit]
  · cases ho : env.oracleAssetPrice with
    | none =>
        simp [get_aave_asset_price, oracleLayer, ha, ho, gaapChainlink_eq,
          firstLayerHit]
    | some v =>
        by_cases hv : v > 0
        · simp [get_aave_asset_price, oracleLayer, ha, ho, hv, firstLayerHit]
        · simp [get_aave_asset_price, oracleLayer, ha, ho, hv,
            gaapChainlink_eq, firstLayerHit]

/-- Claim C2 counterexample: for wstETH at a block where the Aave oracle
call raises, the direct WSTETH feed is unusable, the exchange-rate calls
raise, and the CAPO adapter reads succeed, the resolver described by the
claim returns null — but the code raises a `NameError` instead of
returning. -/
theorem C2_counterexample :
    get_aave_asset_price envCapoOnly "wstETH" wstethAddr (some "WSTETH") =
      Except.error PyErr.nameError ∧
    specPriceResolver envCapoOnly "wstETH" wstethAddr (some "WSTETH") = none := by
  exact ⟨by decide, by decide⟩

/-- Claim C2, amended: the resolver tries, in order, (1) the Aave V3
oracle (getAssetPrice at the block over 10^8), (2) the Chainlink block
resolver — which itself tries the direct USD feed, an Aave-oracle token
table, the CAPO-capped LSD computation, the uncapped LSD computation, and
the ETH-based composition feed — (3) a broken CAPO branch that raises
`NameError` whenever CAPO parameters are found (and otherwise yields
nothing), (4) the uncapped LSD computation, and (5) the stablecoin
fallback of 1.0, returning the first positive result and null when every
layer yields none — except that the `NameError` of step 3 escapes instead
of a result. -/
theorem C2_resolver_layer_order_amended :
    ∀ (env : PriceEnv) (symbol addr : String) (feedSymbol : Option String),
      get_aave_asset_price env symbol addr feedSymbol =
        firstLayerHit
          [.ok (oracleLayer env addr),
           .ok (chainlinkLayer env (feedToUseOf symbol feedSymbol)),
           brokenCapoLayer env symbol addr,
           .ok (rawLsdLayer env addr),
           .ok (stableLayer symbol)] := by
  intro env symbol addr feedSymbol
  exact gaap_layers_eq env symbol addr feedSymbol

/-! ## Claim C10: the CAPO branch and the undefined names -/

/-- Claim C10, confirmed (and strengthened): `LSD_CONTRACTS` and
`rotate_provider` are not among the scanner module's global names, and
whenever control reaches the CAPO branch with CAPO parameters found for
the asset at the block (an LSD asset whose Aave-oracle and Chainlink
layers yielded no price), the branch never returns a CAPO-capped price:
the `NameError` escapes the function. -/
theorem C10_capo_branch_never_prices :
    ∀ (env : PriceEnv) (symbol addr : String) (feedSymbol : Option String)
      (pr : CapoParams),
      is_lsd_token addr = true →
      capoChainParams env symbol = some pr →
      oracleLayer env addr = none →
      chainlinkLayer env (feedToUseOf symbol feedSymbol) = none →
      "LSD_CONTRACTS" ∉ scannerModuleGlobals ∧
      "rotate_provider" ∉ scannerModuleGlobals ∧
      get_aave_asset_price env symbol addr feedSymbol =
        Except.error PyErr.nameError := by
  intro env symbol addr feedSymbol pr hlsd hcapo hor hcl
  refine ⟨by decide, by decide, ?_⟩
  rw [gaap_layers_eq]
  simp only [firstLayerHit]
  rw [hor, hcl]
  unfold brokenCapoLayer
  rw [if_pos hlsd, hcapo]
  rw [if_neg (by decide : ¬ "LSD_CONTRACTS" ∈ scannerModuleGlobals),
      if_neg (by decide : ¬ "rotate_provider" ∈ scannerModuleGlobals)]

/-- Witness for claim C10 at wstETH under `envCapoOnly`. -/
theorem C10_capo_branch_never_prices_witness :
    "LSD_CONTRACTS" ∉ scannerModuleGlobals ∧
    "rotate_provider" ∉ scannerModuleGlobals ∧
    get_aave_asset_price envCapoOnly "wstETH" wstethAddr (some "WSTETH") =
      Except.error PyErr.nameError :=
  C10_capo_branch_never_prices envCapoOnly "wstETH" wstethAddr (some "WSTETH")
    ⟨1000000000000000000, 0, 968, 18⟩ (by decide) (by decide) (by decide)
    (by decide)

/-! ## Claim C3: the CAPO price bound -/

/-- Claim C3 counterexample: wstETH under `envCapoTie` is priced via the
CAPO path (`used_capo = true`), the CAPO parameters read at the block are
`snapshot_ratio = 10^18`, zero allowed yearly growth, and the underlying
stETH price is 1.0 — so `underlying_price × max_ratio / 10^ratio_decimals
= 1.0` — yet the persisted price is 1.005, because the raw-versus-capped
difference of 0.005 does not exceed the code's 0.01 epsilon and the raw
price is persisted. -/
theorem C3_counterexample :
    lsd_price_for_block envCapoTie "WSTETH" = (some (201 / 200), true) ∧
    capoParamsUsed envCapoTie "WSTETH" = some (CapoJson.ratioP capoTieParams) ∧
    lsdUnderlyingUsed envCapoTie "WSTETH" = some 1 ∧
    (201 / 200 : ℚ) >
      1 * maxAllowedRat capoTieParams (eventTsOf envCapoTie) /
        10 ^ capoTieParams.ratioDecimals := by
  have hparams : capoParamsUsed envCapoTie "WSTETH" =
      some (CapoJson.ratioP capoTieParams) := by decide
  have hu : lsdUnderlyingUsed envCapoTie "WSTETH" = some 1 := by
    norm_num [lsdUnderlyingUsed, lsdUnderlyingGo, lsdContractLookup,
      LSD_CONTRACTS, envCapoTie, List.find?]
  refine ⟨?_, hparams, hu, ?_⟩
  · unfold lsd_price_for_block lsdPriceGo
    rw [show lsdContractLookup "WSTETH" =
        some ⟨"stEthPerToken", "STETH", 18, false⟩ from by decide]
    rw [show envCapoTie.lsdRate "WSTETH" = some 1005000000000000000 from by decide]
    rw [show lsdUnderlyingGo envCapoTie
        (getPriceForBlockFuel envCapoTie (PRICE_FUEL - 1)) "WSTETH" =
          some 1 from hu]
    rw [hparams]
    norm_num [capoTieParams, capPriceFromSnapshot, pyRound, roundHalfEven,
      secondsPerYear, envCapoTie]
  · norm_num [maxAllowedRat, capoTieParams, secondsPerYear, eventTsOf,
      envCapoTie]

/-- Claim C3, amended: for every LSD asset priced via the CAPO path with
ratio-type parameters and a positive underlying price, the persisted USD
price at event time is at most `underlying_price × max_ratio /
10^ratio_decimals` plus a slack of 0.01 (the code's raw-versus-capped
epsilon) plus half an ulp of the 8-decimal quantization, where
`max_ratio = snapshot_ratio + (snapshot_ratio × max_yearly_bps ×
elapsed_seconds) / (10000 × seconds_per_year)`. -/
theorem C3_capo_cap_bound_amended :
    ∀ (env : PriceEnv) (sym : String) (p : ℚ) (pr : CapoParams) (u : ℚ),
      lsd_price_for_block env sym = (some p, true) →
      capoParamsUsed env sym = some (CapoJson.ratioP pr) →
      lsdUnderlyingUsed env sym = some u →
      0 < u →
      p ≤ u * maxAllowedRat pr (eventTsOf env) / 10 ^ pr.ratioDecimals +
        (1 / 100 + 1 / 200000000) := by
  intro env sym p pr u h1 h2 h3 hu
  unfold lsd_price_for_block at h1
  unfold lsdUnderlyingUsed at h3
  unfold lsdPriceGo at h1
  cases hc : lsdContractLookup sym with
  | none => rw [hc] at h1; simp at h1
  | some cfg =>
      rw [hc] at h1
      dsimp only at h1
      cases hr : env.lsdRate sym with
      | none => rw [hr] at h1; simp at h1
      | some raw =>
          rw [hr] at h1
          dsimp only at h1
          rw [h3] at h1
          dsimp only at h1
          rw [if_neg hu.ne', h2] at h1
          dsimp only at h1
          have hts : (match env.blockTs with
              | some t => (t : Int)
              | none => (env.wallClock : Int)) = eventTsOf env := rfl
          rw [hts, if_pos hu.ne'] at h1
          have hcap := capPriceFromSnapshot_le u
            (u * ((raw : ℚ) / 10 ^ cfg.decimals) * 10 ^ pr.ratioDecimals / u)
            pr (eventTsOf env) hu
          split at h1
          · have hp : capPriceFromSnapshot u
                (u * ((raw : ℚ) / 10 ^ cfg.decimals) * 10 ^ pr.ratioDecimals / u)
                (pr.snapshot : ℚ) (pr.snapTs : Int)
                (pr.maxYearlyBps : Int) pr.ratioDecimals (eventTsOf env) = p := by
              have := h1
              simp only [Prod.mk.injEq, Option.some.injEq] at this
              exact this.1
            rw [← hp]
            linarith
          · rename_i hno
            have hp : u * ((raw : ℚ) / 10 ^ cfg.decimals) = p := by
              have := h1
              simp only [Prod.mk.injEq, Option.some.injEq] at this
              exact this.1
            rw [not_lt] at hno
            rw [← hp]
            linarith

/-- Witness for the amended claim C3 at `envCapoTie`: the persisted price
1.005 respects the amended bound 1.0 + 0.01 + half an ulp. -/
theorem C3_capo_cap_bound_amended_witness :
    lsd_price_for_block envCapoTie "WSTETH" = (some (201 / 200), true) ∧
    capoParamsUsed envCapoTie "WSTETH" = some (CapoJson.ratioP capoTieParams) ∧
    lsdUnderlyingUsed envCapoTie "WSTETH" = some 1 ∧
    (0 : ℚ) < 1 ∧
    (201 / 200 : ℚ) ≤
      1 * maxAllowedRat capoTieParams (eventTsOf envCapoTie) /
        10 ^ capoTieParams.ratioDecimals + (1 / 100 + 1 / 200000000) := by
  have hparams : capoParamsUsed envCapoTie "WSTETH" =
      some (CapoJson.ratioP capoTieParams) := by decide
  have hu : lsdUnderlyingUsed envCapoTie "WSTETH" = some 1 := by
    norm_num [lsdUnderlyingUsed, lsdUnderlyingGo, lsdContractLookup,
      LSD_CONTRACTS, envCapoTie, List.find?]
  have hp : lsd_price_for_block envCapoTie "WSTETH" = (some (201 / 200), true) := by
    unfold lsd_price_for_block lsdPriceGo
    rw [show lsdContractLookup "WSTETH" =
        some ⟨"stEthPerToken", "STETH", 18, false⟩ from by decide]
    rw [show envCapoTie.lsdRate "WSTETH" = some 1005000000000000000 from by decide]
    rw [show lsdUnderlyingGo envCapoTie
        (getPriceForBlockFuel envCapoTie (PRICE_FUEL - 1)) "WSTETH" =
          some 1 from hu]
    rw [hparams]
    norm_num [capoTieParams, capPriceFromSnapshot, pyRound, roundHalfEven,
      secondsPerYear, envCapoTie]
  exact ⟨hp, hparams, hu, by norm_num,
    C3_capo_cap_bound_amended envCapoTie "WSTETH" (201 / 200) capoTieParams 1
      hp hparams hu (by norm_num)⟩
